import Mathlib

/-!
# Verification of the airline Graph-RAG retrieval pipeline

Shallow embedding of the Python sources of the ACL-Milestone-3 repository:

* `preprocessing/intent-classifier.py`   — `classify_intent`
* `preprocessing/entity-extractions.py`  — `extract_entities` and sub-extractors
* `retrieval/query_executor.py`          — `QueryExecutor.execute_query`
* `embeddings/similarity_search.py`      — `SimilaritySearcher.search_by_query`
* `llm_layer/result_combiner.py`         — `ResultCombiner`
* `llm_layer/prompt_builder.py`          — `PromptBuilder.build_prompt`
* `llm_layer/llm_integrations_v2.py`     — `LLMIntegration.query_model`
* `llm_layer/graph_rag_pipeline.py`      — `GraphRAGPipeline.answer_question`

Python dictionaries are modelled as association lists of `PyValue`s, Python
numbers as rationals, and external I/O (Neo4j sessions, sentence-encoder
calls, the hosted LLM endpoint) as explicit oracle arguments of type
`Except String _` whose `.error` constructor models a raised exception.
In-place mutation of the caller's record dictionaries by the result combiner
is modelled by returning the updated lists alongside the combined output.
-/

/-! ## ASCII string helpers (Python `str.lower`, `str.upper`, `in`) -/

/-- ASCII lower-casing of one character, as Python's `str.lower` acts on the
ASCII letters appearing in the keyword tables of the repository. -/
def pyLowerChar (c : Char) : Char :=
  if 'A' ≤ c ∧ c ≤ 'Z' then Char.ofNat (c.toNat + 32) else c

/-- ASCII upper-casing of one character, as Python's `str.upper` acts on the
ASCII letters appearing in the vocabularies of the repository. -/
def pyUpperChar (c : Char) : Char :=
  if 'a' ≤ c ∧ c ≤ 'z' then Char.ofNat (c.toNat - 32) else c

/-- Python `text.lower()` (ASCII fragment). -/
def pyLower (s : String) : String := ⟨s.data.map pyLowerChar⟩

/-- Python `text.upper()` (ASCII fragment). -/
def pyUpper (s : String) : String := ⟨s.data.map pyUpperChar⟩

/-- `leadsWith pat l` is true when `pat` is an initial segment of `l`. -/
def leadsWith : List Char → List Char → Bool
  | [], _ => true
  | _ :: _, [] => false
  | a :: as, b :: bs => a == b && leadsWith as bs

/-- `hasSubstr hay needle` models Python's `needle in hay` on strings'
character lists. -/
def hasSubstr (hay needle : List Char) : Bool :=
  if leadsWith needle hay then true
  else
    match hay with
    | [] => false
    | _ :: t => hasSubstr t needle

/-- Python's substring test `needle in hay` on `String`. -/
def strIn (needle hay : String) : Bool := hasSubstr hay.data needle.data

/-- `anyKw t ws` models Python's `any(word in t for word in ws)`. -/
def anyKw (t : String) (ws : List String) : Bool := ws.any (fun w => strIn w t)

/-! ## Intent classifier (`preprocessing/intent-classifier.py`)

The Python function is a chain of early `return`s; an outer `if` whose body
returns only under an inner condition falls through to the next rule, which
the embedding renders as a conjunction in an `if … else if …` chain. -/

/-- Embedding of `classify_intent` from `preprocessing/intent-classifier.py`. -/
def classify_intent (text : String) : String :=
  let t := pyLower text
  if anyKw t ["average", "mean", "count", "how many", "total", "percentage", "statistics", "stats"] then
    "calculate_statistic"
  else if anyKw t ["longest", "worst", "most delayed", "maximum delay"] &&
          anyKw t ["delay", "late"] then
    "most_delayed_flights"
  else if anyKw t ["longest", "worst", "most delayed", "maximum delay"] &&
          (strIn "longest" t && anyKw t ["journey", "flight", "route", "distance"]) then
    "longest_journeys"
  else if anyKw t ["shortest", "fastest", "quickest", "nearest"] &&
          anyKw t ["journey", "flight", "route", "distance"] then
    "shortest_journeys"
  else if anyKw t ["multi-leg", "connection", "stop", "layover", "indirect"] then
    "multi_leg_flights"
  else if anyKw t ["loyalty", "frequent flyer", "member", "tier"] then
    "loyalty_analysis"
  else if anyKw t ["delay", "late", "on time", "punctual", "arrival time"] then
    "delay_analysis"
  else if anyKw t ["flight", "flights", "depart", "arrive"] && (strIn "from" t || strIn "to" t) then
    "find_flights"
  else if anyKw t ["airport", "terminal", "gate", "station"] then
    "airport_info"
  else if anyKw t ["rating", "satisfaction", "feedback", "experience", "service quality", "food", "meal"] then
    "passenger_experience"
  else if anyKw t ["recommend", "best route", "optimal"] then
    "route_recommendation"
  else if anyKw t ["flight", "flights", "journey", "journeys"] then
    "general_query"
  else
    "general_query"

/-- The fixed set of intent labels that `classify_intent` can return. -/
def intentLabels : List String :=
  ["calculate_statistic", "most_delayed_flights", "longest_journeys",
   "shortest_journeys", "multi_leg_flights", "loyalty_analysis",
   "delay_analysis", "find_flights", "airport_info", "passenger_experience",
   "route_recommendation", "general_query"]

example : classify_intent "What is the average delay?" = "calculate_statistic" := by decide
example : classify_intent "Which flights are late?" = "delay_analysis" := by decide
example : classify_intent "hello there" = "general_query" := by decide

/-! ## Python values and dictionaries

Result records flowing through the pipeline are Python dictionaries whose
values are strings, numbers (modelled as rationals), `None`, nested
dictionaries, or lists.  A dictionary is modelled as an association list with
first-key-wins lookup; Python's insertion-order update semantics is modelled
by `dset`.  -/

/-- A Python value as it occurs in the result records of the pipeline:
`None`, a string, a number (rational), or a nested dictionary.  A nested
dictionary is encoded by its own two constructors (`dnil` for `{}` and
`dcons` for one key/value entry followed by the rest) rather than by a
nested `List`, so that Lean can derive decidable equality; `isDictVal` and
`nestedGet` below give it Python-dictionary lookup semantics. -/
inductive PyValue where
  | vNone : PyValue
  | vStr : String → PyValue
  | vNum : ℚ → PyValue
  | dnil : PyValue
  | dcons : String → PyValue → PyValue → PyValue
deriving DecidableEq

/-- Python `isinstance(v, dict)` for the encoded values. -/
def isDictVal : PyValue → Bool
  | PyValue.dnil => true
  | PyValue.dcons _ _ _ => true
  | _ => false

/-- Python `d.get(k)` on an encoded nested dictionary (first key wins),
`none` when the key is absent or the value is not a dictionary. -/
def nestedGet : PyValue → String → Option PyValue
  | PyValue.dcons k v rest, key => if k == key then some v else nestedGet rest key
  | _, _ => none

/-- A Python dictionary with string keys (a result record). -/
abbrev PyDict := List (String × PyValue)

/-- Python `d[k]` / `k in d` combined: `some v` when key `k` is present with
value `v`, `none` when the key is absent. -/
def dget (r : PyDict) (k : String) : Option PyValue :=
  (r.find? (fun p => p.1 == k)).map (fun p => p.2)

/-- Python `d.get(k)`: the stored value, or `None` when the key is absent. -/
def dgetD (r : PyDict) (k : String) : PyValue := (dget r k).getD PyValue.vNone

/-- Python `d[k] = v`: overwrite in place when the key exists (keeping its
position), append otherwise. -/
def dset (r : PyDict) (k : String) (v : PyValue) : PyDict :=
  if r.any (fun p => p.1 == k) then
    r.map (fun p => if p.1 == k then (k, v) else p)
  else
    r ++ [(k, v)]

/-- Python truthiness of a value (`if feedback_id:`): `None`, the empty
string, zero and empty containers are falsy. -/
def truthy : PyValue → Bool
  | PyValue.vNone => false
  | PyValue.vStr s => !(s.data.isEmpty)
  | PyValue.vNum q => decide (q ≠ 0)
  | PyValue.dnil => false
  | PyValue.dcons _ _ _ => true

/-! ## Result combiner (`llm_layer/result_combiner.py`) -/

/-- Embedding of `ResultCombiner._extract_id`: the `feedback_ID` value when
the key is present (even when it is `None`), else the nested
`result["j"].get("feedback_ID")` when `"j"` holds a dictionary, else `None`. -/
def extract_id (r : PyDict) : PyValue :=
  match dget r "feedback_ID" with
  | some v => v
  | none =>
    match dget r "j" with
    | some j => if isDictVal j then (nestedGet j "feedback_ID").getD PyValue.vNone
                else PyValue.vNone
    | none => PyValue.vNone

/-- One pass of `ResultCombiner._merge_and_deduplicate`: the Python method
runs two structurally identical loops, the first over the Cypher results with
`_extract_id` and tag `"cypher"`, the second over the embedding results with
`result.get("feedback_ID")` and tag `"embedding"`.  `dedupPass getId tag l
seen` returns the list with the surviving records mutated in place (the
Python loop writes `result["source"] = tag` into the original dictionary),
the list of surviving records, and the final `seen_ids` set (as a list). -/
def dedupPass (getId : PyDict → PyValue) (tag : String) :
    List PyDict → List PyValue → List PyDict × List PyDict × List PyValue
  | [], seen => ([], [], seen)
  | r :: rest, seen =>
    let fid := getId r
    if truthy fid ∧ fid ∉ seen then
      let r' := dset r "source" (PyValue.vStr tag)
      let (upd, uq, seen') := dedupPass getId tag rest (fid :: seen)
      (r' :: upd, r' :: uq, seen')
    else
      let (upd, uq, seen') := dedupPass getId tag rest seen
      (r :: upd, uq, seen')

/-- The id lookup used by the embedding loop of `_merge_and_deduplicate`:
`result.get("feedback_ID")`. -/
def embId (r : PyDict) : PyValue := dgetD r "feedback_ID"

/-- Embedding of `ResultCombiner._merge_and_deduplicate`.  Returns the
mutated Cypher list, the mutated embedding list and the merged unique list
(the Python method returns only the latter; the first two model its in-place
writes of the `"source"` key). -/
def merge_and_deduplicate (cypher_results embedding_results : List PyDict) :
    List PyDict × List PyDict × List PyDict :=
  let (cy', uqc, seen) := dedupPass extract_id "cypher" cypher_results []
  let (em', uqe, _) := dedupPass embId "embedding" embedding_results seen
  (cy', em', uqc ++ uqe)

/-- Embedding of `ResultCombiner._calculate_avg`: the mean of the numeric
values of `field` over the records that carry one, `none` when no record
does (guarding the division). -/
def calculate_avg (results : List PyDict) (field : String) : Option ℚ :=
  let values := results.filterMap (fun r =>
    match dget r field with
    | some (PyValue.vNum q) => some q
    | _ => none)
  if values.isEmpty then none else some (values.sum / values.length)

example :
    (merge_and_deduplicate [[("feedback_ID", PyValue.vStr "J1")]]
      [[("feedback_ID", PyValue.vStr "J1")], [("feedback_ID", PyValue.vStr "J2")]]).2.2 =
    [[("feedback_ID", PyValue.vStr "J1"), ("source", PyValue.vStr "cypher")],
     [("feedback_ID", PyValue.vStr "J2"), ("source", PyValue.vStr "embedding")]] := by
  decide

/-! ### Text rendering of results

Python renders values into the context block with f-strings.  The digit-level
rendering of numbers (`str(x)`, `f"{x:.2f}"`) is abstracted by the concrete
functions below; no claim depends on the digits produced, only on which
records and aggregates are rendered. -/

/-- Rendering of a value into text (Python `str(…)` inside an f-string). -/
def pyStr : PyValue → String
  | PyValue.vNone => "None"
  | PyValue.vStr s => s
  | PyValue.vNum q => toString q
  | PyValue.dnil => "\x7b\x7d"
  | PyValue.dcons _ _ _ => "\x7b...\x7d"

/-- Zero padding on the left to width `w`. -/
def padZeros (w : ℕ) (s : String) : String :=
  ⟨List.replicate (w - s.data.length) '0'⟩ ++ s

/-- Fixed-point rendering of a rational with `dec` decimals (Python
`f"{x:.decf}"`, rounding abstracted to round-half-up). -/
def fixedRepr (dec : ℕ) (q : ℚ) : String :=
  let m : ℤ := ⌊q * (10 : ℚ) ^ dec + 1/2⌋
  let sign := if m < 0 then "-" else ""
  let a := m.natAbs
  if dec = 0 then sign ++ toString a
  else sign ++ toString (a / 10 ^ dec) ++ "." ++ padZeros dec (toString (a % 10 ^ dec))

/-- Fixed-point rendering of a value that is expected to be numeric. -/
def pyFormatFixed (dec : ℕ) : PyValue → String
  | PyValue.vNum q => fixedRepr dec q
  | v => pyStr v

/-- Python `"c" * n`. -/
def repeatStr (c : Char) (n : ℕ) : String := ⟨List.replicate n c⟩

/-- Embedding of `ResultCombiner._format_single_result`. -/
def format_single_result (r : PyDict) (index : ℕ) (include_score : Bool) : String :=
  let feedback_id := if truthy (dgetD r "feedback_ID") then dgetD r "feedback_ID" else extract_id r
  let passenger_class := (dget r "passenger_class").getD (PyValue.vStr "Unknown")
  let food_score := (dget r "food_satisfaction_score").getD (PyValue.vStr "N/A")
  let delay := (dget r "arrival_delay_minutes").getD (PyValue.vStr "N/A")
  let miles := (dget r "actual_flown_miles").getD (PyValue.vStr "N/A")
  let legs := (dget r "number_of_legs").getD (PyValue.vStr "N/A")
  let flight_number := (dget r "flight_number").getD (PyValue.vStr "N/A")
  let fleet_type := (dget r "fleet_type").getD (PyValue.vStr "N/A")
  let dep_airport := (dget r "departure_airport").getD (PyValue.vStr "N/A")
  let arr_airport := (dget r "arrival_airport").getD (PyValue.vStr "N/A")
  let generation := (dget r "generation").getD (PyValue.vStr "N/A")
  let loyalty := (dget r "loyalty_level").getD (PyValue.vStr "N/A")
  let record_locator := (dget r "record_locator").getD (PyValue.vStr "N/A")
  let score := dgetD r "score"
  let lines :=
    ["\nResult " ++ toString index ++ ":"] ++
    (if truthy feedback_id then ["  Journey ID: " ++ pyStr feedback_id] else []) ++
    ["  Route: " ++ pyStr dep_airport ++ " → " ++ pyStr arr_airport,
     "  Flight: " ++ pyStr flight_number ++ " (" ++ pyStr fleet_type ++ ")",
     "  Passenger Class: " ++ pyStr passenger_class,
     "  Passenger: " ++ pyStr generation ++ ", " ++ pyStr loyalty ++
       " loyalty (Locator: " ++ pyStr record_locator ++ ")",
     "  Food Satisfaction: " ++ pyStr food_score ++ "/5",
     "  Arrival Delay: " ++ pyStr delay ++ " minutes",
     "  Distance: " ++ pyStr miles ++ " miles",
     "  Number of Legs: " ++ pyStr legs] ++
    (if include_score ∧ score ≠ PyValue.vNone then
      ["  Similarity Score: " ++ pyFormatFixed 3 score] else [])
  String.intercalate "\n" lines

/-- The `context_parts` list built by `_format_for_llm` on its statistical
branch (`intent == "calculate_statistic" and cypher_results`). -/
def statisticParts (cypher_results embedding_results : List PyDict)
    (intent : String) (params : PyDict) : List String :=
  let record := cypher_results.headD []
  let total := (dget record "total_journeys").getD (PyValue.vNum 0)
  let avg_delay := (dget record "avg_delay").getD (PyValue.vNum 0)
  let avg_food := (dget record "avg_food_score").getD (PyValue.vNum 0)
  let avg_dist := (dget record "avg_distance").getD (PyValue.vNum 0)
  let min_delay := (dget record "min_delay").getD (PyValue.vNum 0)
  let max_delay := (dget record "max_delay").getD (PyValue.vNum 0)
  let active_filters :=
    (if truthy (dgetD params "generation") then
      ["Generation: " ++ pyStr (dgetD params "generation")] else []) ++
    (if truthy (dgetD params "passenger_class") then
      ["Passenger Class: " ++ pyStr (dgetD params "passenger_class")] else []) ++
    (if truthy (dgetD params "from_airport") then
      ["From: " ++ pyStr (dgetD params "from_airport")] else []) ++
    (if truthy (dgetD params "to_airport") then
      ["To: " ++ pyStr (dgetD params "to_airport")] else []) ++
    (if truthy (dgetD params "number_of_legs") then
      ["Legs: " ++ pyStr (dgetD params "number_of_legs")] else [])
  ["KNOWLEDGE GRAPH DATA (Intent: " ++ intent ++ "):", repeatStr '=' 80,
   "STATISTICAL ANALYSIS:"] ++
  (if !active_filters.isEmpty then
    ["Filters Applied: " ++ String.intercalate ", " active_filters]
   else ["Filters Applied: None (Global Statistics)"]) ++
  [repeatStr '-' 80,
   "Total Journeys: " ++ pyStr total,
   "Average Delay: " ++ pyFormatFixed 2 avg_delay ++ " minutes",
   "Average Food Satisfaction: " ++ pyFormatFixed 2 avg_food ++ "/5",
   "Average Distance: " ++ pyFormatFixed 2 avg_dist ++ " miles",
   "Delay Range: " ++ pyStr min_delay ++ " to " ++ pyStr max_delay ++ " minutes",
   repeatStr '=' 80] ++
  (if !embedding_results.isEmpty then
    ["\nRELEVANT EXAMPLES (from AI similarity search):", repeatStr '-' 80] ++
    (List.enumFrom 1 (embedding_results.take 5)).map
      (fun p => format_single_result p.2 p.1 true)
   else [])

/-- The `context_parts` list built by `_format_for_llm` on its listing
branch (sections 1–3). -/
def listingParts (cypher_results embedding_results unique_results : List PyDict)
    (intent : String) : List String :=
  ["KNOWLEDGE GRAPH DATA (Intent: " ++ intent ++ "):", repeatStr '=' 80] ++
  (if !cypher_results.isEmpty then
    ["\n1. EXACT MATCHES from database query (" ++ toString cypher_results.length ++
       " results):", repeatStr '-' 80] ++
    (List.enumFrom 1 cypher_results).map (fun p => format_single_result p.2 p.1 false)
   else ["\n1. EXACT MATCHES: No exact matches found."]) ++
  (if !embedding_results.isEmpty then
    ["\n2. SEMANTIC MATCHES from AI similarity search (" ++
       toString embedding_results.length ++ " results):", repeatStr '-' 80] ++
    (List.enumFrom 1 embedding_results).map (fun p => format_single_result p.2 p.1 true)
   else ["\n2. SEMANTIC MATCHES: No similar journeys found."]) ++
  ["\n3. SUMMARY:", repeatStr '-' 80,
   "Total unique journeys found: " ++ toString unique_results.length,
   "From exact database queries: " ++ toString cypher_results.length,
   "From semantic similarity: " ++ toString embedding_results.length] ++
  (if !unique_results.isEmpty then
    (match calculate_avg unique_results "arrival_delay_minutes" with
     | some q => ["Average arrival delay: " ++ fixedRepr 1 q ++ " minutes"]
     | none => []) ++
    (match calculate_avg unique_results "food_satisfaction_score" with
     | some q => ["Average food satisfaction: " ++ fixedRepr 1 q ++ "/5"]
     | none => [])
   else []) ++
  [repeatStr '=' 80]

/-- Embedding of `ResultCombiner._format_for_llm`: the statistical branch
returns early; otherwise the three listing sections are joined. -/
def format_for_llm (cypher_results embedding_results unique_results : List PyDict)
    (intent : String) (params : PyDict) : String :=
  if intent == "calculate_statistic" ∧ ¬cypher_results.isEmpty then
    String.intercalate "\n" (statisticParts cypher_results embedding_results intent params)
  else
    String.intercalate "\n" (listingParts cypher_results embedding_results unique_results intent)

/-! ### Responses and the combined output -/

/-- The dictionary returned by `QueryExecutor.execute_query` (the echoed
Cypher query text is omitted: no claim concerns it). -/
structure QueryResponse where
  intent : String
  params : PyDict
  results : List PyDict
  count : ℕ
  error : Option String
deriving DecidableEq

/-- The dictionary returned by `SimilaritySearcher.search_by_query` (the
truncated `query_embedding` preview is omitted: no claim concerns it). -/
structure EmbResponse where
  query : String
  model : String
  embedding_property : String
  results : List PyDict
  count : ℕ
deriving DecidableEq

/-- The dictionary returned by `ResultCombiner.combine_results`. -/
structure CombinedOutput where
  cypher_results : List PyDict
  embedding_results : List PyDict
  unique_results : List PyDict
  formatted_context : String
  total_count : ℕ
deriving DecidableEq

/-- Embedding of `ResultCombiner.combine_results` (Python default
`max_results = 20`).  Besides the returned dictionary, the function yields
the two response dictionaries as left behind by the call: the first
`max_results` records of each list are mutated in place by
`_merge_and_deduplicate`, the tail is untouched. -/
def combine_results (cypher_response : QueryResponse) (embedding_response : EmbResponse)
    (max_results : ℕ) : CombinedOutput × QueryResponse × EmbResponse :=
  let cypher_results := cypher_response.results.take max_results
  let embedding_results := embedding_response.results.take max_results
  let (cy', em', unique_results) := merge_and_deduplicate cypher_results embedding_results
  let formatted_context :=
    format_for_llm cy' em' unique_results cypher_response.intent cypher_response.params
  ({ cypher_results := cy',
     embedding_results := em',
     unique_results := unique_results,
     formatted_context := formatted_context,
     total_count := unique_results.length },
   { cypher_response with results := cy' ++ cypher_response.results.drop max_results },
   { embedding_response with results := em' ++ embedding_response.results.drop max_results })

/-- Python whitespace (`str.strip`, regex `\s`). -/
def isPySpace (c : Char) : Bool :=
  c == ' ' || c == '\t' || c == '\n' || c == '\r' || c == '\x0b' || c == '\x0c'

/-- Python `s.strip()`. -/
def pyStrip (s : String) : String :=
  ⟨((s.data.dropWhile isPySpace).reverse.dropWhile isPySpace).reverse⟩

/-! ## Query executor (`retrieval/query_executor.py`)

The round trip `session.run` + `_process_results` against the external graph
store is modelled by an oracle of type `Except String (List PyDict)`: `.ok`
carries the flattened records of a successful query, `.error` carries the
message of a raised exception. -/

/-- Embedding of `QueryExecutor._map_entities_to_params` (Python default:
`entities.get("limit") or 20`, so a falsy extracted limit falls back to 20). -/
def map_entities_to_params (intent : String) (entities : PyDict) : PyDict :=
  let params : PyDict :=
    [("from_airport", dgetD entities "departure_airport"),
     ("to_airport", dgetD entities "arrival_airport"),
     ("passenger_class", dgetD entities "passenger_class"),
     ("generation", dgetD entities "generation"),
     ("number_of_legs", dgetD entities "number_of_legs"),
     ("limit", if truthy (dgetD entities "limit") then dgetD entities "limit"
               else PyValue.vNum 20)]
  if intent == "airport_info" then
    dset params "station_code"
      (if truthy (dgetD entities "departure_airport") then dgetD entities "departure_airport"
       else dgetD entities "arrival_airport")
  else params

/-- Embedding of `QueryExecutor.execute_query`: the whole query execution is
wrapped in `try`/`except`, so an oracle error is returned as a structured
response with an `error` field, empty `results` and `count` zero. -/
def execute_query (intent : String) (entities : PyDict)
    (sessionRun : Except String (List PyDict)) : QueryResponse :=
  let params := map_entities_to_params intent entities
  match sessionRun with
  | Except.ok records =>
      { intent := intent, params := params, results := records,
        count := records.length, error := none }
  | Except.error e =>
      { intent := intent, params := params, results := [],
        count := 0, error := some e }

/-- Embedding of `QueryExecutor.format_results_for_llm` (used by the
pipeline when only the Cypher retrieval path is enabled). -/
def qe_format_results_for_llm (resp : QueryResponse) : String :=
  let body :=
    if resp.count = 0 then "No results found in the knowledge graph for this query."
    else if resp.intent == "calculate_statistic" then
      let record := resp.results.headD []
      "Statistical Analysis:\n" ++
      "Total Journeys: " ++ pyStr ((dget record "total_journeys").getD (PyValue.vNum 0)) ++ "\n" ++
      "Average Delay: " ++ pyFormatFixed 2 ((dget record "avg_delay").getD (PyValue.vNum 0)) ++ " minutes\n" ++
      "Average Food Satisfaction: " ++ pyFormatFixed 2 ((dget record "avg_food_score").getD (PyValue.vNum 0)) ++ "/5\n" ++
      "Average Distance: " ++ pyFormatFixed 2 ((dget record "avg_distance").getD (PyValue.vNum 0)) ++ " miles\n" ++
      "Delay Range: " ++ pyStr ((dget record "min_delay").getD (PyValue.vNum 0)) ++ " to " ++
        pyStr ((dget record "max_delay").getD (PyValue.vNum 0)) ++ " minutes\n"
    else
      let blocks := (List.enumFrom 1 resp.results).map (fun p =>
        let record := p.2
        "Result " ++ toString p.1 ++ ":\n" ++
        "Journey ID: " ++ pyStr ((dget record "feedback_ID").getD (PyValue.vStr "unknown")) ++ "\n" ++
        "Passenger Class: " ++ pyStr ((dget record "passenger_class").getD (PyValue.vStr "Unknown")) ++ "\n" ++
        "Food Satisfaction: " ++ pyStr ((dget record "food_satisfaction_score").getD (PyValue.vStr "N/A")) ++ "/5\n" ++
        "Arrival Delay: " ++ pyStr ((dget record "arrival_delay_minutes").getD (PyValue.vStr "N/A")) ++ " minutes\n" ++
        "Distance: " ++ pyStr ((dget record "actual_flown_miles").getD (PyValue.vStr "N/A")) ++ " miles\n" ++
        "Number of Legs: " ++ pyStr ((dget record "number_of_legs").getD (PyValue.vStr "N/A")) ++ "\n" ++
        "Flight: " ++ pyStr ((dget record "flight_number").getD (PyValue.vStr "N/A")) ++ " (" ++
          pyStr ((dget record "fleet_type").getD (PyValue.vStr "N/A")) ++ ")\n" ++
        "Route: " ++ pyStr ((dget record "departure_airport").getD (PyValue.vStr "N/A")) ++ " → " ++
          pyStr ((dget record "arrival_airport").getD (PyValue.vStr "N/A")) ++ "\n" ++
        "Passenger: " ++ pyStr ((dget record "generation").getD (PyValue.vStr "N/A")) ++ ", " ++
          pyStr ((dget record "loyalty_level").getD (PyValue.vStr "N/A")) ++ " loyalty (Locator: " ++
          pyStr ((dget record "record_locator").getD (PyValue.vStr "N/A")) ++ ")\n\n")
      pyStrip ("Found " ++ toString resp.count ++ " result(s) for " ++ resp.intent ++ ":\n\n" ++
        String.join blocks)
  match resp.error with
  | some e => if !(e.data.isEmpty) then "Error executing query: " ++ e else body
  | none => body

/-! ## Similarity searcher (`embeddings/similarity_search.py`)

`search_by_query` embeds the query text (`embed_query`, an external
sentence-encoder call) and then runs the vector similarity query
(`similarity_search`, an external Neo4j call).  Both external calls are
modelled as oracles of `Except` type.  The source contains no `try`/`except`
around either call, so an oracle error propagates out of `search_by_query`;
the embedding therefore returns `Except String EmbResponse`, with `.error`
modelling the raised exception. -/

/-- Embedding of `SimilaritySearcher.search_by_query`. -/
def search_by_query (user_query model_name embedding_property : String)
    (embedOracle : Except String (List ℚ))
    (searchOracle : List ℚ → Except String (List PyDict)) :
    Except String EmbResponse :=
  match embedOracle with
  | Except.error e => Except.error e
  | Except.ok query_embedding =>
    match searchOracle query_embedding with
    | Except.error e => Except.error e
    | Except.ok results =>
      Except.ok { query := user_query, model := model_name,
                  embedding_property := embedding_property,
                  results := results, count := results.length }

/-- Embedding of `SimilaritySearcher.format_results_for_llm` (used by the
pipeline when only the semantic retrieval path is enabled). -/
def ss_format_results_for_llm (resp : EmbResponse) : String :=
  if resp.count = 0 then "No similar journeys found in the knowledge graph."
  else
    let blocks := (List.enumFrom 1 resp.results).map (fun p =>
      let record := p.2
      "Result " ++ toString p.1 ++ " (similarity: " ++
        pyFormatFixed 3 ((dget record "score").getD (PyValue.vNum 0)) ++ "):\n" ++
      "  - Journey ID: " ++ pyStr ((dget record "feedback_ID").getD (PyValue.vStr "unknown")) ++ "\n" ++
      "  - Class: " ++ pyStr ((dget record "passenger_class").getD (PyValue.vStr "unknown")) ++ "\n" ++
      "  - Food satisfaction: " ++ pyStr ((dget record "food_satisfaction_score").getD (PyValue.vNum 0)) ++ "/5\n" ++
      "  - Arrival delay: " ++ pyStr ((dget record "arrival_delay_minutes").getD (PyValue.vNum 0)) ++ " minutes\n" ++
      "  - Distance: " ++ pyStr ((dget record "actual_flown_miles").getD (PyValue.vNum 0)) ++ " miles\n" ++
      "  - Legs: " ++ pyStr ((dget record "number_of_legs").getD (PyValue.vNum 1)) ++ "\n\n")
    pyStrip ("Found " ++ toString resp.count ++ " similar journeys for query: \x27" ++
      resp.query ++ "\x27\n\n" ++ String.join blocks)

/-! ## LLM integration (`llm_layer/llm_integrations_v2.py`)

The remote chat-completion call is an oracle of type `Except String String`
(`.ok` carries the generated text, `.error` the message of a raised
exception); the wall-clock `response_time` field is dropped from the model
(real time is outside the embedding, and no claim depends on its value).
`query_model` itself can raise `ValueError` for an unknown model key, so the
embedding returns `Except String ModelResponse`. -/

/-- The dictionary returned by `LLMIntegration.query_model`. -/
structure ModelResponse where
  model : String
  model_full_name : String
  answer : String
  success : Bool
  error : Option String
deriving DecidableEq

/-- The static model table of `LLMIntegration.__init__` (key ↦ full name). -/
def llmModels : List (String × String) :=
  [("openai", "openai/gpt-oss-120b"),
   ("qwen", "Qwen/Qwen2.5-7B-Instruct"),
   ("llama", "meta-llama/Llama-3.1-8B-Instruct")]

/-- Embedding of `LLMIntegration.query_model`.  `available` is the
`huggingface_hub`-import flag; `callOracle` is the remote chat-completion
call.  An unknown `model_key` raises `ValueError` (modelled as `.error`);
any exception from the remote call is caught and returned as a failed
response whose `answer` is the string `"Error: …"`. -/
def query_model (available : Bool) (prompt model_key : String)
    (callOracle : String → Except String String) : Except String ModelResponse :=
  if !available then
    Except.ok
      { model := model_key, model_full_name := "N/A",
        answer := "Error: huggingface_hub not installed. Run: pip install huggingface-hub",
        success := false, error := some "Module not installed" }
  else
    match llmModels.find? (fun p => p.1 == model_key) with
    | none => Except.error ("Unknown model: " ++ model_key ++
        ". Choose from: [\x27openai\x27, \x27qwen\x27, \x27llama\x27]")
    | some kv =>
      match callOracle prompt with
      | Except.ok answer =>
        Except.ok
          { model := model_key, model_full_name := kv.2,
            answer := answer, success := true, error := none }
      | Except.error e =>
        Except.ok
          { model := model_key, model_full_name := kv.2,
            answer := "Error: " ++ e, success := false, error := some e }

/-! ## Prompt builder (`llm_layer/prompt_builder.py`) -/

/-- The default persona of `PromptBuilder._default_persona`. -/
def default_persona : String :=
  "You are an airline company insights assistant. Your role is to analyze\n" ++
  "flight performance data and passenger satisfaction metrics to help the airline\n" ++
  "improve service quality. You provide factual, data-driven insights based on\n" ++
  "actual flight records and passenger feedback."

/-- Embedding of `PromptBuilder.build_prompt`. -/
def build_prompt (persona user_query context : String) (include_instructions : Bool) : String :=
  let prompt_parts :=
    [repeatStr '=' 80, "PERSONA:", repeatStr '=' 80, pyStrip persona, ""] ++
    [repeatStr '=' 80, "CONTEXT (Knowledge Graph Data):", repeatStr '=' 80, pyStrip context, ""] ++
    [repeatStr '=' 80, "TASK:", repeatStr '=' 80,
     "Answer the following question based ONLY on the CONTEXT provided above.", ""] ++
    (if include_instructions then
      ["IMPORTANT INSTRUCTIONS:",
       "1. Use ONLY the information provided in the CONTEXT section",
       "2. If the CONTEXT doesn\x27t contain enough information, say: \x27I don\x27t have sufficient data to answer this question\x27",
       "3. Provide specific examples from the data (journey IDs, metrics, numbers)",
       "4. Be concise and factual - avoid speculation",
       "5. Do NOT make up or hallucinate any flight numbers, delays, or statistics",
       "6. If you see conflicting data, mention both sources",
       ""]
     else []) ++
    [repeatStr '-' 80, "USER QUESTION:", pyStrip user_query, repeatStr '-' 80, ""] ++
    ["YOUR ANSWER:", "(Provide a clear, factual answer based on the CONTEXT above)", ""]
  String.intercalate "\n" prompt_parts

/-! ## Entity extractor (`preprocessing/entity-extractions.py`)

The handful of fixed regular expressions of the source are embedded as
dedicated left-to-right scanners with Python `re.search` semantics (leftmost
match; `\b` is a word boundary over `[A-Za-z0-9_]`; greedy repetition with
the backtracking behaviour each concrete pattern admits).  `date.today()` is
real time, so the three relative dates are supplied by a `DateOracle`
argument. -/

/-- Regex word character (`\w` over ASCII). -/
def isWordChar (c : Char) : Bool := c.isAlpha || c.isDigit || c == '_'

/-- Word boundary `\b` in front of a word character, given the preceding
character (`none` at the start of the text). -/
def boundaryOkBefore : Option Char → Bool
  | none => true
  | some c => !isWordChar c

/-- Trailing word boundary `\b`: the next character (if any) is not a word
character. -/
def noWordAhead : List Char → Bool
  | [] => true
  | c :: _ => !isWordChar c

/-- ASCII uppercase-letter test (regex class `[A-Z]`). -/
def isUpperAZ (c : Char) : Bool := 'A' ≤ c ∧ c ≤ 'Z'

/-- Numeric value of a digit run. -/
def natOfDigits (l : List Char) : ℕ :=
  l.foldl (fun n c => 10 * n + (c.toNat - 48)) 0

/-- Generic `re.search` driver: try the pattern at every position from the
left, keeping track of the preceding character for `\b` tests. -/
def reScan {α : Type} (tryAt : Option Char → List Char → Option α) :
    Option Char → List Char → Option α
  | prev, l =>
    match tryAt prev l with
    | some x => some x
    | none =>
      match l with
      | [] => none
      | c :: t => reScan tryAt (some c) t

/-- `re.search` over a string. -/
def reSearch {α : Type} (tryAt : Option Char → List Char → Option α) (s : String) :
    Option α :=
  reScan tryAt none s.data

/-- One-position matcher for `FLIGHT_RE = \b([A-Z]{2}\d{2,4})\b` (the
pattern is applied to the upper-cased text). -/
def tryFlight (prev : Option Char) (l : List Char) : Option String :=
  match l with
  | a :: b :: rest =>
    if boundaryOkBefore prev ∧ isUpperAZ a ∧ isUpperAZ b then
      let digits := rest.takeWhile Char.isDigit
      if 2 ≤ digits.length ∧ digits.length ≤ 4 ∧ noWordAhead (rest.drop digits.length) then
        some ⟨a :: b :: digits⟩
      else none
    else none
  | _ => none

/-- Embedding of `extract_flight_number`. -/
def extract_flight_number (text : String) : Option String :=
  reSearch tryFlight (pyUpper text)

/-- One-position matcher for `ROUTE_RE = \b([A-Z]{3})-([A-Z]{3})\b`. -/
def tryRoute (prev : Option Char) (l : List Char) : Option (String × String) :=
  match l with
  | a :: b :: c :: '-' :: d :: e :: f :: rest =>
    if boundaryOkBefore prev ∧ isUpperAZ a ∧ isUpperAZ b ∧ isUpperAZ c ∧
       isUpperAZ d ∧ isUpperAZ e ∧ isUpperAZ f ∧ noWordAhead rest then
      some (⟨[a, b, c]⟩, ⟨[d, e, f]⟩)
    else none
  | _ => none

/-- `AIRPORT_CODE_RE.findall`: all non-overlapping `\b([A-Z]{3})\b` matches,
left to right. -/
def findCodes : Option Char → List Char → List String
  | _, [] => []
  | prev, a :: b :: c :: rest =>
    if boundaryOkBefore prev ∧ isUpperAZ a ∧ isUpperAZ b ∧ isUpperAZ c ∧
       noWordAhead rest then
      (⟨[a, b, c]⟩ : String) :: findCodes (some c) rest
    else findCodes (some a) (b :: c :: rest)
  | _, a :: t => findCodes (some a) t

/-- The stoplist of `extract_airports_and_route`. -/
def excludedWords : List String :=
  ["THE", "AND", "FOR", "ARE", "YOU", "CAN", "ANY", "ALL", "TOP", "ASC", "DESC",
   "GEN", "NEW", "OLD", "BAD", "BIG", "ONE", "TWO", "GET", "GOT", "HAS", "HAD",
   "NOT", "BUT", "YET", "NOW", "HOW", "WHY", "WHO", "WAS", "WEE", "WAY", "LEG"]

/-- Embedding of `extract_airports_and_route`. -/
def extract_airports_and_route (text : String) :
    Option String × Option String × Option String :=
  let upper := pyUpper text
  let lower := pyLower text
  match reSearch tryRoute upper with
  | some de => (some de.1, some de.2, some (de.1 ++ "-" ++ de.2))
  | none =>
    let all_matches := findCodes none upper.data
    let codes_found := all_matches.filter (fun code => !excludedWords.contains code)
    let hasFrom := strIn "from" lower
    let hasTo := strIn "to" lower
    let dep_arr :=
      if hasFrom ∧ hasTo ∧ 2 ≤ codes_found.length then
        (codes_found.get? 0, codes_found.get? 1)
      else if codes_found.length = 2 then
        (codes_found.get? 0, codes_found.get? 1)
      else if hasFrom ∧ 1 ≤ codes_found.length then (codes_found.get? 0, none)
      else if hasTo ∧ 1 ≤ codes_found.length then (none, codes_found.get? 0)
      else (none, none)
    let route :=
      match dep_arr with
      | (some d, some a) => some (d ++ "-" ++ a)
      | _ => none
    (dep_arr.1, dep_arr.2, route)

/-- The ordered passenger-class keyword table (`PASSENGER_CLASS_KEYWORDS`). -/
def passengerClassKeywords : List (String × List String) :=
  [("economy", ["economy", "eco"]),
   ("business", ["business", "biz"]),
   ("first", ["first class", "first"])]

/-- Embedding of `extract_passenger_class`. -/
def extract_passenger_class (text : String) : Option String :=
  let lower := pyLower text
  (passengerClassKeywords.find? (fun p => p.2.any (fun kw => strIn kw lower))).map
    (fun p => p.1)

/-- The ordered generation table (`GENERATIONS_MAP`). -/
def generationsMap : List (String × String) :=
  [("gen z", "Gen Z"), ("millennial", "Millennial"), ("boomer", "Boomer"),
   ("gen x", "Gen X"), ("silent", "Silent")]

/-- Embedding of `extract_generation`. -/
def extract_generation (text : String) : Option String :=
  let lower := pyLower text
  (generationsMap.find? (fun p => strIn p.1 lower)).map (fun p => p.2)

/-- The fleet-type vocabulary (`FLEET_TYPES`). -/
def fleetTypes : List String :=
  ["A320", "A321", "A330", "A350", "A380", "B737", "B747", "B757", "B767", "B777", "B787"]

/-- Embedding of `extract_fleet_type`. -/
def extract_fleet_type (text : String) : Option String :=
  let upper := pyUpper text
  fleetTypes.find? (fun f => strIn f upper)

/-- The three relative dates computed by `extract_date` from `date.today()`
(real time, supplied externally). -/
structure DateOracle where
  today : String
  tomorrow : String
  nextWeek : String

/-- One-position matcher for `\b(20\d{2})-(\d{2})-(\d{2})\b`. -/
def tryIsoDate (prev : Option Char) (l : List Char) : Option String :=
  match l with
  | '2' :: '0' :: y1 :: y2 :: '-' :: m1 :: m2 :: '-' :: d1 :: d2 :: rest =>
    if boundaryOkBefore prev ∧ y1.isDigit ∧ y2.isDigit ∧ m1.isDigit ∧ m2.isDigit ∧
       d1.isDigit ∧ d2.isDigit ∧ noWordAhead rest then
      some ⟨['2', '0', y1, y2, '-', m1, m2, '-', d1, d2]⟩
    else none
  | _ => none

/-- Embedding of `extract_date`. -/
def extract_date (dates : DateOracle) (text : String) : Option String :=
  let lower := pyLower text
  if strIn "today" lower then some dates.today
  else if strIn "tomorrow" lower then some dates.tomorrow
  else if strIn "next week" lower then some dates.nextWeek
  else reSearch tryIsoDate text

/-- One-position matcher for `\b(\d+)\s+legs?\b`. -/
def tryLegs (prev : Option Char) (l : List Char) : Option ℕ :=
  if boundaryOkBefore prev then
    let digits := l.takeWhile Char.isDigit
    if digits.isEmpty then none
    else
      let rest1 := (l.drop digits.length)
      let sp := rest1.takeWhile isPySpace
      if sp.isEmpty then none
      else
        match rest1.drop sp.length with
        | 'l' :: 'e' :: 'g' :: 's' :: rest =>
          if noWordAhead rest then some (natOfDigits digits) else none
        | 'l' :: 'e' :: 'g' :: rest =>
          if noWordAhead rest then some (natOfDigits digits) else none
        | _ => none
  else none

/-- Embedding of `extract_number_of_legs`. -/
def extract_number_of_legs (text : String) : Option ℕ :=
  let lower := pyLower text
  if strIn "non-stop" lower || strIn "direct" lower then some 1
  else if strIn "one leg" lower || strIn "1 leg" lower then some 1
  else reSearch tryLegs lower

/-- One-position matcher for `\bKW\s+(\d+)\b` (the `top`/`first`/`the`/
`limit` limit patterns). -/
def tryKwNum (kw : List Char) (prev : Option Char) (l : List Char) : Option ℕ :=
  if boundaryOkBefore prev ∧ leadsWith kw l then
    let rest := l.drop kw.length
    let sp := rest.takeWhile isPySpace
    if sp.isEmpty then none
    else
      let rest2 := rest.drop sp.length
      let digits := rest2.takeWhile Char.isDigit
      if digits.isEmpty then none
      else if noWordAhead (rest2.drop digits.length) then some (natOfDigits digits)
      else none
  else none

/-- One-position matcher for `\b(\d+)\s+(?:flight|journey|result)`. -/
def tryNumNoun (prev : Option Char) (l : List Char) : Option ℕ :=
  if boundaryOkBefore prev then
    let digits := l.takeWhile Char.isDigit
    if digits.isEmpty then none
    else
      let rest := l.drop digits.length
      let sp := rest.takeWhile isPySpace
      if sp.isEmpty then none
      else
        let rest2 := rest.drop sp.length
        if leadsWith "flight".data rest2 || leadsWith "journey".data rest2 ||
           leadsWith "result".data rest2 then
          some (natOfDigits digits)
        else none
  else none

/-- The ordered `limit_patterns` loop of `extract_superlatives`: the first
pattern with a match wins. -/
def limitSearch (lower : String) : Option ℕ :=
  match reSearch (tryKwNum "top".data) lower with
  | some n => some n
  | none =>
    match reSearch (tryKwNum "first".data) lower with
    | some n => some n
    | none =>
      match reSearch (tryKwNum "the".data) lower with
      | some n => some n
      | none =>
        match reSearch tryNumNoun lower with
        | some n => some n
        | none => reSearch (tryKwNum "limit".data) lower

/-- Embedding of `extract_superlatives`: sort direction (descending keywords
checked first), sort attribute, and numeric limit with the default of 10
when a superlative was found but no (truthy) number. -/
def extract_superlatives (text : String) :
    Option String × Option String × Option ℕ :=
  let lower := pyLower text
  let sort_order :=
    if anyKw lower ["longest", "worst", "most", "highest", "maximum", "max",
                    "slowest", "largest", "biggest", "top", "greatest"] then
      some "DESC"
    else if anyKw lower ["shortest", "best", "least", "lowest", "minimum", "min",
                         "fastest", "smallest", "bottom", "fewest"] then
      some "ASC"
    else none
  let sort_attribute :=
    if anyKw lower ["delay", "late", "punctual", "on time", "arrival"] then
      some "delay"
    else if anyKw lower ["distance", "miles", "far", "long haul", "short haul"] then
      some "miles"
    else if anyKw lower ["food", "meal", "service quality", "satisfaction"] then
      some "food_score"
    else if anyKw lower ["connection", "stop", "leg"] then
      some "legs"
    else none
  let limit0 := limitSearch lower
  let limit :=
    if sort_order.isSome && (match limit0 with | some n => decide (n = 0) | none => true) then
      some 10
    else limit0
  (sort_order, sort_attribute, limit)

/-- Option-to-value coercions for the `asdict` result of `extract_entities`. -/
def optStr : Option String → PyValue
  | some s => PyValue.vStr s
  | none => PyValue.vNone

/-- Numeric counterpart of `optStr`. -/
def optNum : Option ℕ → PyValue
  | some n => PyValue.vNum n
  | none => PyValue.vNone

/-- Embedding of the public wrapper `extract_entities` (the `asdict` of the
`AirlineEntities` dataclass, in field order). -/
def extract_entities (dates : DateOracle) (user_input : String) : PyDict :=
  let de := extract_airports_and_route user_input
  let sl := extract_superlatives user_input
  [("flight_no", optStr (extract_flight_number user_input)),
   ("departure_airport", optStr de.1),
   ("arrival_airport", optStr de.2.1),
   ("route", optStr de.2.2),
   ("passenger_class", optStr (extract_passenger_class user_input)),
   ("generation", optStr (extract_generation user_input)),
   ("fleet_type", optStr (extract_fleet_type user_input)),
   ("date", optStr (extract_date dates user_input)),
   ("sort_order", optStr sl.1),
   ("sort_attribute", optStr sl.2.1),
   ("limit", optNum sl.2.2),
   ("number_of_legs", optNum (extract_number_of_legs user_input))]

example : extract_superlatives "top 5 shortest journeys" =
    (some "DESC", none, some 5) := by decide

example : extract_flight_number "Complaints on MS985 please" = some "MS985" := by decide

example : extract_airports_and_route "from CAI to DXB" =
    (some "CAI", some "DXB", some "CAI-DXB") := by decide

/-! ## Pipeline orchestrator (`llm_layer/graph_rag_pipeline.py`) -/

/-- The result bundle returned by `GraphRAGPipeline.answer_question`. -/
structure PipelineBundle where
  user_query : String
  intent : String
  entities : PyDict
  cypher_results : Option QueryResponse
  embedding_results : Option EmbResponse
  combined_context : String
  prompt : String
  llm_response : ModelResponse
  answer : String
  success : Bool
deriving DecidableEq

/-- Embedding of `GraphRAGPipeline.answer_question`.  The stages run in
sequence: intent classification, entity extraction, optional Cypher
retrieval (`execute_query` with its session oracle), optional semantic
retrieval (`search_by_query`, whose exceptions propagate), result
combination (with its response mutation), prompt building, and the LLM call
(`query_model`, which raises on an unknown model key).  Unhandled exceptions
surface as `.error`. -/
def answer_question (dates : DateOracle) (user_query model_key : String)
    (use_embeddings use_cypher : Bool)
    (embedding_model_name embedding_property : String)
    (sessionRun : Except String (List PyDict))
    (embedOracle : Except String (List ℚ))
    (searchOracle : List ℚ → Except String (List PyDict))
    (llmAvailable : Bool)
    (llmCall : String → Except String String) : Except String PipelineBundle :=
  let intent := classify_intent user_query
  let entities := extract_entities dates user_query
  let cypher_response :=
    if use_cypher then some (execute_query intent entities sessionRun) else none
  let embStep : Except String (Option EmbResponse) :=
    if use_embeddings then
      (search_by_query user_query embedding_model_name embedding_property
        embedOracle searchOracle).map some
    else Except.ok none
  match embStep with
  | Except.error e => Except.error e
  | Except.ok embedding_response =>
    let ctxAndResps :=
      match cypher_response, embedding_response with
      | some cy, some em =>
        let c := combine_results cy em 20
        (c.1.formatted_context, some c.2.1, some c.2.2)
      | some cy, none => (qe_format_results_for_llm cy, some cy, none)
      | none, some em => (ss_format_results_for_llm em, none, some em)
      | none, none => ("No data found.", none, none)
    let prompt := build_prompt default_persona user_query ctxAndResps.1 true
    match query_model llmAvailable prompt model_key llmCall with
    | Except.error e => Except.error e
    | Except.ok llm_response =>
      Except.ok
        { user_query := user_query, intent := intent, entities := entities,
          cypher_results := ctxAndResps.2.1, embedding_results := ctxAndResps.2.2,
          combined_context := ctxAndResps.1, prompt := prompt,
          llm_response := llm_response, answer := llm_response.answer,
          success := llm_response.success }

/-! ## Dictionary lemmas -/

theorem find?_map_set_ne (r : PyDict) (k k' : String) (v : PyValue) (h : k' ≠ k) :
    (r.map (fun p => if p.1 == k then (k, v) else p)).find? (fun p => p.1 == k') =
      r.find? (fun p => p.1 == k') := by
  induction r with
  | nil => rfl
  | cons p t ih =>
    rw [List.map_cons]
    by_cases hp : p.1 = k
    · rw [if_pos (show (p.1 == k) = true by simp [hp])]
      rw [List.find?_cons_of_neg _ (by simp; exact fun hc => h hc.symm),
          List.find?_cons_of_neg _ (by simp [hp]; exact fun hc => h hc.symm)]
      exact ih
    · rw [if_neg (show ¬(p.1 == k) = true by simp [hp])]
      by_cases hq : p.1 = k'
      · rw [List.find?_cons_of_pos _ (by simp [hq]), List.find?_cons_of_pos _ (by simp [hq])]
      · rw [List.find?_cons_of_neg _ (by simp [hq]), List.find?_cons_of_neg _ (by simp [hq])]
        exact ih

theorem dget_dset_ne (r : PyDict) (k k' : String) (v : PyValue) (h : k' ≠ k) :
    dget (dset r k v) k' = dget r k' := by
  unfold dget dset
  split
  · rw [find?_map_set_ne r k k' v h]
  · rw [List.find?_append]
    have hnone : List.find? (fun p => p.1 == k') [(k, v)] = none := by
      simp; exact fun hc => h hc.symm
    rw [hnone]
    cases List.find? (fun p => p.1 == k') r <;> rfl

theorem find?_dset_self (r : PyDict) (k : String) (v : PyValue) :
    (dset r k v).find? (fun p => p.1 == k) = some (k, v) := by
  unfold dset
  by_cases hany : r.any (fun p => p.1 == k) = true
  · rw [if_pos hany]
    induction r with
    | nil => simp at hany
    | cons p t ih =>
      by_cases hp : p.1 = k
      · rw [List.map_cons, if_pos (show (p.1 == k) = true by simp [hp]),
          List.find?_cons_of_pos _ (by simp)]
      · have hany' : t.any (fun p => p.1 == k) = true := by
          simp only [List.any_cons] at hany
          rcases Bool.or_eq_true_iff.mp hany with h1 | h1
          · exact absurd (by simpa using h1) hp
          · exact h1
        rw [List.map_cons, if_neg (show ¬(p.1 == k) = true by simp [hp]),
          List.find?_cons_of_neg _ (by simp [hp])]
        exact ih hany'
  · rw [if_neg hany, List.find?_append]
    have hnone : r.find? (fun p => p.1 == k) = none := by
      rw [List.find?_eq_none]
      intro x hx hc
      exact hany (List.any_eq_true.mpr ⟨x, hx, hc⟩)
    rw [hnone]
    simp

theorem dget_dset_self (r : PyDict) (k : String) (v : PyValue) :
    dget (dset r k v) k = some v := by
  unfold dget
  rw [find?_dset_self]
  rfl

theorem dset_dset_self (r : PyDict) (k : String) (v : PyValue) :
    dset (dset r k v) k v = dset r k v := by
  have hany : (dset r k v).any (fun p => p.1 == k) = true :=
    List.any_eq_true.mpr ⟨(k, v), List.mem_of_find?_eq_some (find?_dset_self r k v), by simp⟩
  by_cases hin : r.any (fun p => p.1 == k) = true
  · have h1 : dset r k v = r.map (fun p => if p.1 == k then (k, v) else p) := by
      unfold dset; rw [if_pos hin]
    rw [h1] at hany ⊢
    unfold dset
    rw [if_pos hany, List.map_map]
    have hgg : ((fun p => if p.1 == k then ((k : String), v) else p) ∘
        (fun p => if p.1 == k then ((k : String), v) else p)) =
        (fun p => if p.1 == k then ((k : String), v) else p) := by
      funext p
      by_cases hp : p.1 = k <;> simp [hp]
    rw [hgg]
  · have h1 : dset r k v = r ++ [(k, v)] := by
      unfold dset; rw [if_neg hin]
    rw [h1] at hany ⊢
    unfold dset
    rw [if_pos hany, List.map_append]
    have hr : r.map (fun p => if p.1 == k then (k, v) else p) = r := by
      have hpt : ∀ p ∈ r, (fun p => if p.1 == k then ((k : String), v) else p) p = id p := by
        intro p hp
        have : ¬(p.1 == k) = true := fun hc => hin (List.any_eq_true.mpr ⟨p, hp, hc⟩)
        simp only [id]
        rw [if_neg this]
      rw [List.map_congr_left hpt, List.map_id]
    rw [hr]
    simp

theorem extract_id_dset_source (r : PyDict) (t : String) :
    extract_id (dset r "source" (PyValue.vStr t)) = extract_id r := by
  unfold extract_id
  rw [dget_dset_ne r _ "feedback_ID" _ (by decide), dget_dset_ne r _ "j" _ (by decide)]

theorem embId_dset_source (r : PyDict) (t : String) :
    embId (dset r "source" (PyValue.vStr t)) = embId r := by
  unfold embId dgetD
  rw [dget_dset_ne r _ "feedback_ID" _ (by decide)]

theorem extract_id_of_truthy_embId (r : PyDict) (h : truthy (embId r) = true) :
    extract_id r = embId r := by
  unfold embId dgetD at *
  unfold extract_id
  cases hv : dget r "feedback_ID" with
  | some v => simp [hv]
  | none => rw [hv] at h; simp [truthy] at h

/-! ## Deduplication-pass lemmas -/

theorem dedupPass_nil (getId : PyDict → PyValue) (tag : String) (seen : List PyValue) :
    dedupPass getId tag [] seen = ([], [], seen) := rfl

theorem dedupPass_cons_pos (getId : PyDict → PyValue) (tag : String)
    (r : PyDict) (rest : List PyDict) (seen : List PyValue)
    (h : truthy (getId r) = true ∧ getId r ∉ seen) :
    dedupPass getId tag (r :: rest) seen =
      (dset r "source" (PyValue.vStr tag) ::
         (dedupPass getId tag rest (getId r :: seen)).1,
       dset r "source" (PyValue.vStr tag) ::
         (dedupPass getId tag rest (getId r :: seen)).2.1,
       (dedupPass getId tag rest (getId r :: seen)).2.2) := by
  conv_lhs => unfold dedupPass
  rw [if_pos h]

theorem dedupPass_cons_neg (getId : PyDict → PyValue) (tag : String)
    (r : PyDict) (rest : List PyDict) (seen : List PyValue)
    (h : ¬(truthy (getId r) = true ∧ getId r ∉ seen)) :
    dedupPass getId tag (r :: rest) seen =
      (r :: (dedupPass getId tag rest seen).1,
       (dedupPass getId tag rest seen).2.1,
       (dedupPass getId tag rest seen).2.2) := by
  conv_lhs => unfold dedupPass
  rw [if_neg h]

theorem dedupPass_length (getId : PyDict → PyValue) (tag : String) :
    ∀ (l : List PyDict) (seen : List PyValue),
      (dedupPass getId tag l seen).1.length = l.length := by
  intro l
  induction l with
  | nil => intro seen; rfl
  | cons r rest ih =>
    intro seen
    by_cases hc : truthy (getId r) = true ∧ getId r ∉ seen
    · rw [dedupPass_cons_pos getId tag r rest seen hc]; simp [ih]
    · rw [dedupPass_cons_neg getId tag r rest seen hc]; simp [ih]

theorem dedupPass_stable (getId : PyDict → PyValue) (tag : String)
    (hG : ∀ r, getId (dset r "source" (PyValue.vStr tag)) = getId r) :
    ∀ (l : List PyDict) (seen : List PyValue),
      dedupPass getId tag (dedupPass getId tag l seen).1 seen =
        dedupPass getId tag l seen := by
  intro l
  induction l with
  | nil => intro seen; rfl
  | cons r rest ih =>
    intro seen
    by_cases hc : truthy (getId r) = true ∧ getId r ∉ seen
    · rw [dedupPass_cons_pos getId tag r rest seen hc]
      have hc' : truthy (getId (dset r "source" (PyValue.vStr tag))) = true ∧
          getId (dset r "source" (PyValue.vStr tag)) ∉ seen := by
        rw [hG]; exact hc
      rw [dedupPass_cons_pos getId tag _ _ seen hc', hG r, dset_dset_self,
        ih (getId r :: seen)]
    · rw [dedupPass_cons_neg getId tag r rest seen hc]
      rw [dedupPass_cons_neg getId tag r _ seen hc, ih seen]

theorem dedupPass_uq_spec (getId : PyDict → PyValue) (tag : String) :
    ∀ (l : List PyDict) (seen : List PyValue) (r' : PyDict),
      r' ∈ (dedupPass getId tag l seen).2.1 →
      ∃ r, r ∈ l ∧ r' = dset r "source" (PyValue.vStr tag) ∧
        truthy (getId r) = true ∧ getId r ∉ seen := by
  intro l
  induction l with
  | nil => intro seen r' h; simp [dedupPass_nil] at h
  | cons r rest ih =>
    intro seen r' h
    by_cases hc : truthy (getId r) = true ∧ getId r ∉ seen
    · rw [dedupPass_cons_pos getId tag r rest seen hc] at h
      rcases List.mem_cons.mp h with h1 | h1
      · exact ⟨r, List.mem_cons_self _ _, h1, hc.1, hc.2⟩
      · obtain ⟨r0, hr0, he, ht, hs⟩ := ih (getId r :: seen) r' h1
        exact ⟨r0, List.mem_cons_of_mem _ hr0, he, ht,
          fun hmem => hs (List.mem_cons_of_mem _ hmem)⟩
    · rw [dedupPass_cons_neg getId tag r rest seen hc] at h
      obtain ⟨r0, hr0, he, ht, hs⟩ := ih seen r' h
      exact ⟨r0, List.mem_cons_of_mem _ hr0, he, ht, hs⟩

theorem dedupPass_seen_eq (getId : PyDict → PyValue) (tag : String)
    (hG : ∀ r, getId (dset r "source" (PyValue.vStr tag)) = getId r) :
    ∀ (l : List PyDict) (seen : List PyValue),
      (dedupPass getId tag l seen).2.2 =
        (((dedupPass getId tag l seen).2.1).map getId).reverse ++ seen := by
  intro l
  induction l with
  | nil => intro seen; simp [dedupPass_nil]
  | cons r rest ih =>
    intro seen
    by_cases hc : truthy (getId r) = true ∧ getId r ∉ seen
    · rw [dedupPass_cons_pos getId tag r rest seen hc]
      rw [ih (getId r :: seen)]
      simp [hG r]
    · rw [dedupPass_cons_neg getId tag r rest seen hc]
      exact ih seen

theorem dedupPass_uq_nodup (getId : PyDict → PyValue) (tag : String)
    (hG : ∀ r, getId (dset r "source" (PyValue.vStr tag)) = getId r) :
    ∀ (l : List PyDict) (seen : List PyValue),
      ((dedupPass getId tag l seen).2.1).Pairwise (fun a b => getId a ≠ getId b) ∧
      ∀ r' ∈ (dedupPass getId tag l seen).2.1, getId r' ∉ seen := by
  intro l
  induction l with
  | nil => intro seen; exact ⟨List.Pairwise.nil, by simp [dedupPass_nil]⟩
  | cons r rest ih =>
    intro seen
    by_cases hc : truthy (getId r) = true ∧ getId r ∉ seen
    · rw [dedupPass_cons_pos getId tag r rest seen hc]
      obtain ⟨hp1, hfresh1⟩ := ih (getId r :: seen)
      constructor
      · rw [List.pairwise_cons]
        refine ⟨fun u hu => ?_, hp1⟩
        rw [hG r]
        intro heq
        exact hfresh1 u hu (heq ▸ List.mem_cons_self _ _)
      · intro r' hr'
        rcases List.mem_cons.mp hr' with h1 | h1
        · rw [h1, hG r]; exact hc.2
        · exact fun hmem => hfresh1 r' h1 (List.mem_cons_of_mem _ hmem)
    · rw [dedupPass_cons_neg getId tag r rest seen hc]
      exact ih seen

theorem dedupPass_seen_mono (getId : PyDict → PyValue) (tag : String) :
    ∀ (l : List PyDict) (seen : List PyValue) (v : PyValue),
      v ∈ seen → v ∈ (dedupPass getId tag l seen).2.2 := by
  intro l
  induction l with
  | nil => intro seen v h; exact h
  | cons r rest ih =>
    intro seen v h
    by_cases hc : truthy (getId r) = true ∧ getId r ∉ seen
    · rw [dedupPass_cons_pos getId tag r rest seen hc]
      exact ih _ v (List.mem_cons_of_mem _ h)
    · rw [dedupPass_cons_neg getId tag r rest seen hc]
      exact ih seen v h

theorem dedupPass_ids_covered (getId : PyDict → PyValue) (tag : String) :
    ∀ (l : List PyDict) (seen : List PyValue) (r : PyDict),
      r ∈ l → truthy (getId r) = true →
      getId r ∈ (dedupPass getId tag l seen).2.2 := by
  intro l
  induction l with
  | nil => intro seen r h; simp at h
  | cons r0 rest ih =>
    intro seen r hmem ht
    by_cases hc : truthy (getId r0) = true ∧ getId r0 ∉ seen
    · rw [dedupPass_cons_pos getId tag r0 rest seen hc]
      rcases List.mem_cons.mp hmem with h1 | h1
      · exact dedupPass_seen_mono getId tag _ _ _ (h1 ▸ List.mem_cons_self _ _)
      · exact ih _ r h1 ht
    · rw [dedupPass_cons_neg getId tag r0 rest seen hc]
      rcases List.mem_cons.mp hmem with h1 | h1
      · have hin : getId r0 ∈ seen := by
          by_contra hno
          exact hc ⟨h1 ▸ ht, hno⟩
        exact dedupPass_seen_mono getId tag _ _ _ (h1 ▸ hin)
      · exact ih seen r h1 ht

theorem dedupPass_pos_disj (getId : PyDict → PyValue) (tag : String) :
    ∀ (l : List PyDict) (seen : List PyValue) (i : ℕ) (r : PyDict),
      l.get? i = some r →
      (dedupPass getId tag l seen).1.get? i = some r ∨
      ((dedupPass getId tag l seen).1.get? i =
          some (dset r "source" (PyValue.vStr tag)) ∧
        dset r "source" (PyValue.vStr tag) ∈ (dedupPass getId tag l seen).2.1) := by
  intro l
  induction l with
  | nil => intro seen i r h; simp at h
  | cons r0 rest ih =>
    intro seen i r h
    by_cases hc : truthy (getId r0) = true ∧ getId r0 ∉ seen
    · rw [dedupPass_cons_pos getId tag r0 rest seen hc]
      cases i with
      | zero =>
        right
        simp only [List.get?] at h
        cases h
        exact ⟨rfl, List.mem_cons_self _ _⟩
      | succ i =>
        simp only [List.get?] at h ⊢
        rcases ih (getId r0 :: seen) i r h with h1 | ⟨h1, h2⟩
        · exact Or.inl h1
        · exact Or.inr ⟨h1, List.mem_cons_of_mem _ h2⟩
    · rw [dedupPass_cons_neg getId tag r0 rest seen hc]
      cases i with
      | zero =>
        left
        simp only [List.get?] at h ⊢
        exact h
      | succ i =>
        simp only [List.get?] at h ⊢
        exact ih seen i r h

theorem dedupPass_pos_bad (getId : PyDict → PyValue) (tag : String) :
    ∀ (l : List PyDict) (seen : List PyValue) (i : ℕ) (r : PyDict),
      l.get? i = some r → truthy (getId r) = false →
      (dedupPass getId tag l seen).1.get? i = some r := by
  intro l
  induction l with
  | nil => intro seen i r h; simp at h
  | cons r0 rest ih =>
    intro seen i r h ht
    by_cases hc : truthy (getId r0) = true ∧ getId r0 ∉ seen
    · rw [dedupPass_cons_pos getId tag r0 rest seen hc]
      cases i with
      | zero =>
        simp only [List.get?] at h
        cases h
        rw [hc.1] at ht
        cases ht
      | succ i =>
        simp only [List.get?] at h ⊢
        exact ih _ i r h ht
    · rw [dedupPass_cons_neg getId tag r0 rest seen hc]
      cases i with
      | zero => simpa using h
      | succ i =>
        simp only [List.get?] at h ⊢
        exact ih seen i r h ht

theorem dedupPass_uq_subset (getId : PyDict → PyValue) (tag : String) :
    ∀ (l : List PyDict) (seen : List PyValue) (r' : PyDict),
      r' ∈ (dedupPass getId tag l seen).2.1 → r' ∈ (dedupPass getId tag l seen).1 := by
  intro l
  induction l with
  | nil => intro seen r' h; simp [dedupPass_nil] at h
  | cons r0 rest ih =>
    intro seen r' h
    by_cases hc : truthy (getId r0) = true ∧ getId r0 ∉ seen
    · rw [dedupPass_cons_pos getId tag r0 rest seen hc] at h ⊢
      rcases List.mem_cons.mp h with h1 | h1
      · exact h1 ▸ List.mem_cons_self _ _
      · exact List.mem_cons_of_mem _ (ih _ r' h1)
    · rw [dedupPass_cons_neg getId tag r0 rest seen hc] at h ⊢
      exact List.mem_cons_of_mem _ (ih seen r' h)

/-! ## Claim C1 — deduplication invariant of `combine_results` -/

/-- C1 counterexample: when the same identifier `J1` is returned by both
retrieval paths, `combine_results` keeps the Cypher version, but writes the
provenance tag `"cypher"` — not `"structured"` as the claim states (nor is
the semantic tag `"semantic"`: it is `"embedding"`). -/
theorem C1_counterexample :
    dget (((combine_results
        { intent := "delay_analysis", params := [],
          results := [[("feedback_ID", PyValue.vStr "J1")]], count := 1, error := none }
        { query := "q", model := "m", embedding_property := "p",
          results := [[("feedback_ID", PyValue.vStr "J1")]], count := 1 }
        20).1.unique_results).headD []) "source" = some (PyValue.vStr "cypher") ∧
    some (PyValue.vStr "cypher") ≠ some (PyValue.vStr "structured") := by
  exact ⟨by decide, by decide⟩

/-- C1 (amended): in the merged unique-results list of `combine_results`,
each journey identifier appears at most once; every surviving record is an
input record with the `"source"` key set in place — Cypher records tagged
`"cypher"`, semantic-only records tagged `"embedding"` — and a semantic
record survives only when its identifier coincides with no (truthy)
identifier of the truncated Cypher list, so on a collision the Cypher
version is the one retained. -/
theorem C1_dedup_invariant (cyResp : QueryResponse) (embResp : EmbResponse) :
    ((combine_results cyResp embResp 20).1.unique_results).Pairwise
      (fun a b => extract_id a ≠ extract_id b) ∧
    ∀ u ∈ (combine_results cyResp embResp 20).1.unique_results,
      (∃ r, r ∈ cyResp.results.take 20 ∧ u = dset r "source" (PyValue.vStr "cypher")) ∨
      (∃ r, r ∈ embResp.results.take 20 ∧ u = dset r "source" (PyValue.vStr "embedding") ∧
        ∀ rc ∈ cyResp.results.take 20, truthy (extract_id rc) = true →
          extract_id rc ≠ embId r) := by
  have hGc : ∀ r, extract_id (dset r "source" (PyValue.vStr "cypher")) = extract_id r :=
    fun r => extract_id_dset_source r _
  have hGe : ∀ r, embId (dset r "source" (PyValue.vStr "embedding")) = embId r :=
    fun r => embId_dset_source r _
  have huq : (combine_results cyResp embResp 20).1.unique_results =
      (dedupPass extract_id "cypher" (cyResp.results.take 20) []).2.1 ++
      (dedupPass embId "embedding" (embResp.results.take 20)
        (dedupPass extract_id "cypher" (cyResp.results.take 20) []).2.2).2.1 := rfl
  have hidu : ∀ u ∈ (dedupPass embId "embedding" (embResp.results.take 20)
      (dedupPass extract_id "cypher" (cyResp.results.take 20) []).2.2).2.1,
      extract_id u = embId u := by
    intro u hu
    obtain ⟨r, _, he, ht, _⟩ := dedupPass_uq_spec embId "embedding" _ _ u hu
    rw [he, extract_id_dset_source, embId_dset_source]
    exact extract_id_of_truthy_embId r ht
  constructor
  · rw [huq, List.pairwise_append]
    refine ⟨(dedupPass_uq_nodup extract_id "cypher" hGc _ _).1, ?_, ?_⟩
    · exact List.Pairwise.imp_of_mem
        (fun ha hb hR => by rw [hidu _ ha, hidu _ hb]; exact hR)
        (dedupPass_uq_nodup embId "embedding" hGe _ _).1
    · intro a ha b hb heq
      have hseen : extract_id a ∈
          (dedupPass extract_id "cypher" (cyResp.results.take 20) []).2.2 := by
        rw [dedupPass_seen_eq extract_id "cypher" hGc]
        rw [List.mem_append, List.mem_reverse, List.mem_map]
        exact Or.inl ⟨a, ha, rfl⟩
      have hfresh := (dedupPass_uq_nodup embId "embedding" hGe
        (embResp.results.take 20)
        (dedupPass extract_id "cypher" (cyResp.results.take 20) []).2.2).2 b hb
      rw [← hidu b hb] at hfresh
      exact hfresh (heq ▸ hseen)
  · rw [huq]
    intro u hu
    rcases List.mem_append.mp hu with h1 | h1
    · obtain ⟨r, hr, he, _, _⟩ := dedupPass_uq_spec extract_id "cypher" _ _ u h1
      exact Or.inl ⟨r, hr, he⟩
    · obtain ⟨r, hr, he, ht, hs⟩ := dedupPass_uq_spec embId "embedding" _ _ u h1
      refine Or.inr ⟨r, hr, he, ?_⟩
      intro rc hrc htc heq
      exact hs (heq ▸ dedupPass_ids_covered extract_id "cypher" _ [] rc hrc htc)

/-- C1 witness: the amended invariant applied to the concrete colliding
inputs of the counterexample. -/
theorem C1_dedup_invariant_witness :
    ((combine_results
        { intent := "delay_analysis", params := [],
          results := [[("feedback_ID", PyValue.vStr "J1")]], count := 1, error := none }
        { query := "q", model := "m", embedding_property := "p",
          results := [[("feedback_ID", PyValue.vStr "J1")]], count := 1 }
        20).1.unique_results).Pairwise (fun a b => extract_id a ≠ extract_id b) :=
  (C1_dedup_invariant _ _).1

/-! ## Claim C2 — aggregate correctness of the reported average delay -/

theorem filterMap_numField (f : String) :
    ∀ (l : List PyDict) (qs : List ℚ),
      l.map (fun r => dget r f) = qs.map (fun q => some (PyValue.vNum q)) →
      l.filterMap (fun r =>
        match dget r f with
        | some (PyValue.vNum q) => some q
        | _ => none) = qs := by
  intro l
  induction l with
  | nil =>
    intro qs h
    simp only [List.map_nil] at h
    have : qs = [] := by
      cases qs with
      | nil => rfl
      | cons q qt => simp at h
    simp [this]
  | cons r t ih =>
    intro qs h
    cases qs with
    | nil => simp at h
    | cons q qt =>
      simp only [List.map_cons, List.cons.injEq] at h
      rw [List.filterMap_cons, h.1]
      simp only
      rw [ih qt h.2]

/-- C2: for a non-empty deduplicated set whose records carry exactly the
numeric `arrival_delay_minutes` values `qs` (one per record), the average
computed by `_calculate_avg` over the deduplicated set is `qs.sum / qs.length`
— the arithmetic mean over exactly those records — and that value is the one
rendered in the summary section of the formatted context; for the empty set
the aggregate is `none` (no division is attempted), so no average line is
rendered. -/
theorem C2_average_correct (cyResp : QueryResponse) (embResp : EmbResponse) (qs : List ℚ)
    (h : ((combine_results cyResp embResp 20).1.unique_results).map
        (fun r => dget r "arrival_delay_minutes") =
      qs.map (fun q => some (PyValue.vNum q)))
    (hne : (combine_results cyResp embResp 20).1.unique_results ≠ []) :
    calculate_avg (combine_results cyResp embResp 20).1.unique_results
        "arrival_delay_minutes" = some (qs.sum / qs.length) ∧
    ("Average arrival delay: " ++ fixedRepr 1 (qs.sum / qs.length) ++ " minutes") ∈
      listingParts (combine_results cyResp embResp 20).1.cypher_results
        (combine_results cyResp embResp 20).1.embedding_results
        (combine_results cyResp embResp 20).1.unique_results cyResp.intent ∧
    calculate_avg ([] : List PyDict) "arrival_delay_minutes" = none := by
  have hqs : qs ≠ [] := by
    intro hq
    apply hne
    rw [hq, List.map_nil] at h
    exact List.map_eq_nil_iff.mp h
  have h1 : calculate_avg (combine_results cyResp embResp 20).1.unique_results
      "arrival_delay_minutes" = some (qs.sum / qs.length) := by
    unfold calculate_avg
    rw [filterMap_numField _ _ _ h]
    rw [if_neg (by simpa [List.isEmpty_iff] using hqs)]
  refine ⟨h1, ?_, rfl⟩
  unfold listingParts
  have hne0 : ((combine_results cyResp embResp 20).1.unique_results).isEmpty = false :=
    List.isEmpty_eq_false.mpr hne
  rw [if_pos (show (!((combine_results cyResp embResp 20).1.unique_results).isEmpty) = true
        by rw [hne0]; rfl), h1]
  simp [List.mem_append]

/-- C2 witness: two surviving records with delays 100 and 50 produce the
reported average 75. -/
theorem C2_average_correct_witness :
    calculate_avg
      (combine_results
        { intent := "delay_analysis", params := [],
          results := [[("feedback_ID", PyValue.vStr "J1"),
                       ("arrival_delay_minutes", PyValue.vNum 100)]],
          count := 1, error := none }
        { query := "long delays", model := "m", embedding_property := "p",
          results := [[("feedback_ID", PyValue.vStr "J1"),
                       ("arrival_delay_minutes", PyValue.vNum 100),
                       ("score", PyValue.vNum (9/10))],
                      [("feedback_ID", PyValue.vStr "J2"),
                       ("arrival_delay_minutes", PyValue.vNum 50),
                       ("score", PyValue.vNum (8/10))]],
          count := 2 }
        20).1.unique_results "arrival_delay_minutes" =
      some ((([100, 50] : List ℚ).sum) / (([100, 50] : List ℚ).length)) :=
  (C2_average_correct _ _ [100, 50] (by decide) (by decide)).1

/-! ## Claim C3 — error handling at the retrieval boundaries -/

/-- C3 counterexample: the similarity searcher has no `try`/`except` — an
exception raised while embedding the query propagates out of
`search_by_query` instead of being returned as a structured error response. -/
theorem C3_counterexample :
    search_by_query "journeys with poor food" "sentence-transformers/all-mpnet-base-v2"
      "embedding_mpnet" (Except.error "connection refused") (fun _ => Except.ok []) =
    Except.error "connection refused" := rfl

/-- C3 (amended): the query executor catches any execution error and returns
a structured response with the error message, an empty result list and count
zero; the similarity searcher has no such boundary — an error raised by the
query-embedding step or by the vector-index query propagates out of
`search_by_query` unchanged. -/
theorem C3_error_boundaries :
    (∀ (intent : String) (entities : PyDict) (e : String),
      (execute_query intent entities (Except.error e)).error = some e ∧
      (execute_query intent entities (Except.error e)).results = [] ∧
      (execute_query intent entities (Except.error e)).count = 0) ∧
    (∀ (q m p e : String) (searchOracle : List ℚ → Except String (List PyDict)),
      search_by_query q m p (Except.error e) searchOracle = Except.error e) ∧
    (∀ (q m p e : String) (emb : List ℚ),
      search_by_query q m p (Except.ok emb) (fun _ => Except.error e) =
        Except.error e) := by
  refine ⟨fun intent entities e => ⟨rfl, rfl, rfl⟩, fun q m p e searchOracle => rfl,
    fun q m p e emb => rfl⟩

/-! ## Claim C4 — exception behaviour of `query_model` and graceful
degradation of the pipeline bundle -/

/-- C4 counterexample: an unknown model key makes `query_model` raise
`ValueError` instead of returning a failed response, and on a caught
exception the returned `answer` is the non-empty string `"Error: …"`, not an
empty/absent answer. -/
theorem C4_counterexample :
    query_model true "PROMPT" "bogus" (fun _ => Except.ok "hi") =
      Except.error
        "Unknown model: bogus. Choose from: [\x27openai\x27, \x27qwen\x27, \x27llama\x27]" ∧
    query_model true "PROMPT" "qwen" (fun _ => Except.error "timeout") =
      Except.ok
        { model := "qwen", model_full_name := "Qwen/Qwen2.5-7B-Instruct",
          answer := "Error: timeout", success := false, error := some "timeout" } ∧
    ("Error: timeout" : String) ≠ "" := by
  exact ⟨rfl, rfl, by decide⟩

/-- C4 (amended): for a model key present in the static model table,
`query_model` never propagates an exception — on a failing remote call it
returns `success = false` with the exception message as the (non-empty when
the message is non-empty) `error` field and the string `"Error: " ++ e` as
the answer; and when the pipeline's generation step fails this way, the
returned bundle still carries the intent, entities, and both retrieval
responses computed by the earlier stages. -/
theorem C4_graceful_degradation (prompt model_key : String) (kv : String × String)
    (hk : llmModels.find? (fun p => p.1 == model_key) = some kv)
    (e : String) (call : String → Except String String)
    (hcall : ∀ p, call p = Except.error e)
    (dates : DateOracle) (uq mname mprop : String)
    (sessionRun : Except String (List PyDict)) (emb : List ℚ)
    (searchOracle : List ℚ → Except String (List PyDict)) (recs : List PyDict)
    (hsearch : searchOracle emb = Except.ok recs) :
    query_model true prompt model_key call =
      Except.ok
        { model := model_key, model_full_name := kv.2,
          answer := "Error: " ++ e, success := false, error := some e } ∧
    ∃ b : PipelineBundle,
      answer_question dates uq model_key true true mname mprop sessionRun
          (Except.ok emb) searchOracle true call = Except.ok b ∧
      b.success = false ∧ b.llm_response.error = some e ∧
      b.llm_response.answer = "Error: " ++ e ∧
      b.intent = classify_intent uq ∧ b.entities = extract_entities dates uq ∧
      b.cypher_results.isSome = true ∧ b.embedding_results.isSome = true := by
  have hq : query_model true prompt model_key call =
      Except.ok
        { model := model_key, model_full_name := kv.2,
          answer := "Error: " ++ e, success := false, error := some e } := by
    unfold query_model
    rw [hk, hcall prompt]
    rfl
  refine ⟨hq, ?_⟩
  have hsbq : search_by_query uq mname mprop (Except.ok emb) searchOracle =
      Except.ok
        { query := uq, model := mname, embedding_property := mprop,
          results := recs, count := recs.length } := by
    show (match searchOracle emb with
        | Except.error err => (Except.error err : Except String EmbResponse)
        | Except.ok results =>
          Except.ok
            { query := uq, model := mname, embedding_property := mprop,
              results := results, count := results.length }) = _
    rw [hsearch]
  have hq2 : ∀ (p : String), query_model true p model_key call =
      Except.ok
        { model := model_key, model_full_name := kv.2,
          answer := "Error: " ++ e, success := false, error := some e } := by
    intro p
    unfold query_model
    rw [hk, hcall p]
    rfl
  simp only [answer_question, hsbq, Except.map, hq2, eq_self_iff_true, if_true]
  exact ⟨_, rfl, rfl, rfl, rfl, rfl, rfl, rfl, rfl⟩

/-- C4 witness: a concrete pipeline run whose LLM call always times out. -/
theorem C4_graceful_degradation_witness :
    query_model true "P" "qwen" (fun _ => Except.error "timeout") =
      Except.ok
        { model := "qwen", model_full_name := "Qwen/Qwen2.5-7B-Instruct",
          answer := "Error: timeout", success := false, error := some "timeout" } ∧
    ∃ b : PipelineBundle,
      answer_question ⟨"2026-10-12", "2026-10-13", "2026-10-19"⟩ "why late" "qwen"
          true true "sentence-transformers/all-mpnet-base-v2" "embedding_mpnet"
          (Except.ok []) (Except.ok []) (fun _ => Except.ok []) true
          (fun _ => Except.error "timeout") = Except.ok b ∧
      b.success = false ∧ b.llm_response.error = some "timeout" ∧
      b.llm_response.answer = "Error: " ++ "timeout" ∧
      b.intent = classify_intent "why late" ∧
      b.entities = extract_entities ⟨"2026-10-12", "2026-10-13", "2026-10-19"⟩ "why late" ∧
      b.cypher_results.isSome = true ∧ b.embedding_results.isSome = true :=
  C4_graceful_degradation "P" "qwen" ("qwen", "Qwen/Qwen2.5-7B-Instruct") rfl
    "timeout" (fun _ => Except.error "timeout") (fun _ => rfl)
    ⟨"2026-10-12", "2026-10-13", "2026-10-19"⟩ "why late"
    "sentence-transformers/all-mpnet-base-v2" "embedding_mpnet"
    (Except.ok []) [] (fun _ => Except.ok []) [] rfl

/-! ## Claim C5 — entities extracted from "top 5 shortest journeys" -/

/-- C5 counterexample: `extract_superlatives` does not return
`("ASC", "miles", 5)` on the text "top 5 shortest journeys". -/
theorem C5_counterexample :
    extract_superlatives "top 5 shortest journeys" ≠
      (some "ASC", some "miles", some 5) := by decide

/-- C5 (amended): on "top 5 shortest journeys" the extractor returns
`sort_order = "DESC"` (the word "top" is in the descending keyword list,
which is checked before the ascending list containing "shortest"),
`sort_attribute = none` ("shortest" matches no attribute keyword set), and
`limit = 5` from the pattern `top N`. -/
theorem C5_superlatives :
    extract_superlatives "top 5 shortest journeys" =
      (some "DESC", none, some 5) := by decide

/-! ## Claim C6 — statistics rule has priority over the delay rule -/

/-- C6: any input containing both "average" and "delay" (case-insensitively)
is classified as `calculate_statistic`, never as `delay_analysis`, because
the statistical-aggregation rule is the first rule of the chain. -/
theorem C6_statistic_before_delay (s : String)
    (ha : strIn "average" (pyLower s) = true)
    (hd : strIn "delay" (pyLower s) = true) :
    classify_intent s = "calculate_statistic" ∧
    classify_intent s ≠ "delay_analysis" := by
  have hcond : anyKw (pyLower s)
      ["average", "mean", "count", "how many", "total", "percentage",
       "statistics", "stats"] = true := by
    unfold anyKw
    rw [List.any_eq_true]
    exact ⟨"average", by simp, ha⟩
  have h1 : classify_intent s = "calculate_statistic" := by
    simp only [classify_intent, hcond, eq_self_iff_true, if_true]
  exact ⟨h1, by rw [h1]; decide⟩

/-- C6 witness: the concrete text "What is the average delay?". -/
theorem C6_statistic_before_delay_witness :
    classify_intent "What is the average delay?" = "calculate_statistic" ∧
    classify_intent "What is the average delay?" ≠ "delay_analysis" :=
  C6_statistic_before_delay "What is the average delay?" (by decide) (by decide)

/-! ## Claim C7 — totality of the intent classifier -/

/-- The union of all keyword lists appearing in the rules of
`classify_intent` (the `"from"`/`"to"` guards of the `find_flights` rule are
irrelevant once no flight keyword matches). -/
def classifierKeywords : List String :=
  ["average", "mean", "count", "how many", "total", "percentage", "statistics",
   "stats", "longest", "worst", "most delayed", "maximum delay", "delay",
   "late", "journey", "flight", "route", "distance", "shortest", "fastest",
   "quickest", "nearest", "multi-leg", "connection", "stop", "layover",
   "indirect", "loyalty", "frequent flyer", "member", "tier", "on time",
   "punctual", "arrival time", "flights", "depart", "arrive", "airport",
   "terminal", "gate", "station", "rating", "satisfaction", "feedback",
   "experience", "service quality", "food", "meal", "recommend", "best route",
   "optimal", "journeys"]

theorem ite_mem_of_mem {c : Prop} [Decidable c] {a b : String} {L : List String}
    (ha : a ∈ L) (hb : b ∈ L) : (if c then a else b) ∈ L := by
  by_cases hc : c
  · rw [if_pos hc]; exact ha
  · rw [if_neg hc]; exact hb

/-- C7: `classify_intent` always returns exactly one label from the fixed
label set (it is a total function into `String`), and when no rule keyword
occurs in the lower-cased input it falls back to `"general_query"`. -/
theorem C7_classifier_total (s : String) :
    classify_intent s ∈ intentLabels ∧
    ((∀ w ∈ classifierKeywords, strIn w (pyLower s) = false) →
      classify_intent s = "general_query") := by
  constructor
  · unfold classify_intent
    dsimp only
    exact ite_mem_of_mem (by decide) (ite_mem_of_mem (by decide)
      (ite_mem_of_mem (by decide) (ite_mem_of_mem (by decide)
      (ite_mem_of_mem (by decide) (ite_mem_of_mem (by decide)
      (ite_mem_of_mem (by decide) (ite_mem_of_mem (by decide)
      (ite_mem_of_mem (by decide) (ite_mem_of_mem (by decide)
      (ite_mem_of_mem (by decide) (ite_mem_of_mem (by decide)
      (by decide))))))))))))
  · intro h
    have hb : ∀ (l : List String), (∀ w ∈ l, w ∈ classifierKeywords) →
        anyKw (pyLower s) l = false := by
      intro l hsub
      unfold anyKw
      rw [List.any_eq_false]
      intro w hw
      simp [h w (hsub w hw)]
    simp only [classify_intent,
      hb ["average", "mean", "count", "how many", "total", "percentage",
          "statistics", "stats"] (by decide),
      hb ["longest", "worst", "most delayed", "maximum delay"] (by decide),
      hb ["shortest", "fastest", "quickest", "nearest"] (by decide),
      hb ["multi-leg", "connection", "stop", "layover", "indirect"] (by decide),
      hb ["loyalty", "frequent flyer", "member", "tier"] (by decide),
      hb ["delay", "late", "on time", "punctual", "arrival time"] (by decide),
      hb ["flight", "flights", "depart", "arrive"] (by decide),
      hb ["airport", "terminal", "gate", "station"] (by decide),
      hb ["rating", "satisfaction", "feedback", "experience",
          "service quality", "food", "meal"] (by decide),
      hb ["recommend", "best route", "optimal"] (by decide),
      hb ["flight", "flights", "journey", "journeys"] (by decide),
      Bool.false_and, Bool.false_eq_true, if_false]

/-- C7 witness: an input matching no rule keyword is classified
`general_query`, a member of the label set. -/
theorem C7_classifier_total_witness :
    classify_intent "zzz qqq" ∈ intentLabels ∧
    classify_intent "zzz qqq" = "general_query" :=
  ⟨(C7_classifier_total "zzz qqq").1, (C7_classifier_total "zzz qqq").2 (by decide)⟩

/-! ## Claim C8 — calling the combiner twice gives identical output -/

theorem take_restore {α : Type} (orig l1 : List α) (n : ℕ)
    (hlen : l1.length = (orig.take n).length) :
    (l1 ++ orig.drop n).take n = l1 := by
  rw [List.take_append_eq_append_take]
  rcases le_or_lt orig.length n with h | h
  · have h1 : l1.length ≤ n := by rw [hlen, List.length_take]; omega
    rw [List.drop_eq_nil_of_le h, List.take_nil, List.append_nil,
      List.take_of_length_le h1]
  · have h1 : l1.length = n := by rw [hlen, List.length_take]; omega
    rw [← h1, List.take_length, Nat.sub_self, List.take_zero, List.append_nil]

theorem drop_restore {α : Type} (orig l1 : List α) (n : ℕ)
    (hlen : l1.length = (orig.take n).length) :
    (l1 ++ orig.drop n).drop n = orig.drop n := by
  rw [List.drop_append_eq_append_drop]
  rcases le_or_lt orig.length n with h | h
  · have h1 : l1.length ≤ n := by rw [hlen, List.length_take]; omega
    rw [List.drop_eq_nil_of_le h, List.drop_eq_nil_of_le h1]
    simp
  · have h1 : l1.length = n := by rw [hlen, List.length_take]; omega
    rw [List.drop_eq_nil_of_le (le_of_eq h1), ← h1, Nat.sub_self, List.drop_zero,
      List.nil_append]

theorem merge_eq (cy em : List PyDict) :
    merge_and_deduplicate cy em =
      ((dedupPass extract_id "cypher" cy []).1,
       (dedupPass embId "embedding" em (dedupPass extract_id "cypher" cy []).2.2).1,
       (dedupPass extract_id "cypher" cy []).2.1 ++
         (dedupPass embId "embedding" em
           (dedupPass extract_id "cypher" cy []).2.2).2.1) := rfl

theorem merge_stable (cyT emT : List PyDict) :
    merge_and_deduplicate (merge_and_deduplicate cyT emT).1
        (merge_and_deduplicate cyT emT).2.1 = merge_and_deduplicate cyT emT := by
  have hA := dedupPass_stable extract_id "cypher"
    (fun r => extract_id_dset_source r _) cyT []
  have hB := dedupPass_stable embId "embedding"
    (fun r => embId_dset_source r _) emT
    (dedupPass extract_id "cypher" cyT []).2.2
  have step : merge_and_deduplicate (merge_and_deduplicate cyT emT).1
      (merge_and_deduplicate cyT emT).2.1 =
      ((dedupPass extract_id "cypher" (dedupPass extract_id "cypher" cyT []).1 []).1,
       (dedupPass embId "embedding"
          (dedupPass embId "embedding" emT (dedupPass extract_id "cypher" cyT []).2.2).1
          (dedupPass extract_id "cypher" (dedupPass extract_id "cypher" cyT []).1 []).2.2).1,
       (dedupPass extract_id "cypher" (dedupPass extract_id "cypher" cyT []).1 []).2.1 ++
       (dedupPass embId "embedding"
          (dedupPass embId "embedding" emT (dedupPass extract_id "cypher" cyT []).2.2).1
          (dedupPass extract_id "cypher" (dedupPass extract_id "cypher" cyT []).1 []).2.2).2.1) := rfl
  rw [step, hA, hB]
  exact (merge_eq cyT emT).symm

theorem combine_results_eq (cyResp : QueryResponse) (embResp : EmbResponse) (n : ℕ) :
    combine_results cyResp embResp n =
      ({ cypher_results :=
           (merge_and_deduplicate (cyResp.results.take n) (embResp.results.take n)).1,
         embedding_results :=
           (merge_and_deduplicate (cyResp.results.take n) (embResp.results.take n)).2.1,
         unique_results :=
           (merge_and_deduplicate (cyResp.results.take n) (embResp.results.take n)).2.2,
         formatted_context := format_for_llm
           (merge_and_deduplicate (cyResp.results.take n) (embResp.results.take n)).1
           (merge_and_deduplicate (cyResp.results.take n) (embResp.results.take n)).2.1
           (merge_and_deduplicate (cyResp.results.take n) (embResp.results.take n)).2.2
           cyResp.intent cyResp.params,
         total_count :=
           (merge_and_deduplicate (cyResp.results.take n) (embResp.results.take n)).2.2.length },
       { cyResp with results :=
           (merge_and_deduplicate (cyResp.results.take n) (embResp.results.take n)).1 ++
             cyResp.results.drop n },
       { embResp with results :=
           (merge_and_deduplicate (cyResp.results.take n) (embResp.results.take n)).2.1 ++
             embResp.results.drop n }) := rfl

/-- C8: calling `combine_results` a second time with the same (mutated)
response dictionaries returns the identical combined output — same record
order, same deduplicated set, same aggregates, same formatted context — and
leaves the responses in the identical state. -/
theorem C8_idempotent (cyResp : QueryResponse) (embResp : EmbResponse) :
    combine_results (combine_results cyResp embResp 20).2.1
        (combine_results cyResp embResp 20).2.2 20 =
      combine_results cyResp embResp 20 := by
  have hlenCy : (merge_and_deduplicate (cyResp.results.take 20)
      (embResp.results.take 20)).1.length = (cyResp.results.take 20).length :=
    dedupPass_length extract_id "cypher" _ _
  have hlenEm : (merge_and_deduplicate (cyResp.results.take 20)
      (embResp.results.take 20)).2.1.length = (embResp.results.take 20).length :=
    dedupPass_length embId "embedding" _ _
  have htakeCy := take_restore cyResp.results
    (merge_and_deduplicate (cyResp.results.take 20) (embResp.results.take 20)).1 20
    (by rw [hlenCy])
  have htakeEm := take_restore embResp.results
    (merge_and_deduplicate (cyResp.results.take 20) (embResp.results.take 20)).2.1 20
    (by rw [hlenEm])
  have hdropCy := drop_restore cyResp.results
    (merge_and_deduplicate (cyResp.results.take 20) (embResp.results.take 20)).1 20
    (by rw [hlenCy])
  have hdropEm := drop_restore embResp.results
    (merge_and_deduplicate (cyResp.results.take 20) (embResp.results.take 20)).2.1 20
    (by rw [hlenEm])
  have hstable := merge_stable (cyResp.results.take 20) (embResp.results.take 20)
  rw [combine_results_eq cyResp embResp 20]
  rw [combine_results_eq]
  dsimp only
  rw [htakeCy, htakeEm, hstable, hdropCy, hdropEm]

/-! ## Claim C9 — records without a usable identifier are silently dropped
from the merged set but still echoed and rendered -/

theorem enumFrom_mem_of_get? {α : Type} :
    ∀ (l : List α) (n i : ℕ) (x : α),
      l.get? i = some x → (n + i, x) ∈ List.enumFrom n l := by
  intro l
  induction l with
  | nil => intro n i x h; simp at h
  | cons a t ih =>
    intro n i x h
    cases i with
    | zero =>
      simp only [List.get?] at h
      cases h
      simp [List.enumFrom]
    | succ i =>
      simp only [List.get?] at h
      refine List.mem_cons_of_mem _ ?_
      have harith : n + (i + 1) = (n + 1) + i := by omega
      rw [harith]
      exact ih (n + 1) i x h

/-- C9: every record of the merged unique list has a truthy identifier and
`total_count` counts exactly that list, so an input record whose identifier
is missing/`None`/empty (for Cypher records: also unrecoverable from the
nested `"j"` object) is excluded from both; yet such a record is still echoed
unchanged at its position in the returned `cypher_results`/`embedding_results`
lists, its per-record detail block still appears in the corresponding section
of the listing parts, and outside the statistics branch the formatted context
is exactly the join of those parts. -/
theorem C9_silent_exclusion (cyResp : QueryResponse) (embResp : EmbResponse) :
    (∀ u ∈ (combine_results cyResp embResp 20).1.unique_results,
      truthy (extract_id u) = true) ∧
    (combine_results cyResp embResp 20).1.total_count =
      ((combine_results cyResp embResp 20).1.unique_results).length ∧
    (∀ (i : ℕ) (r : PyDict), (cyResp.results.take 20).get? i = some r →
      (extract_id r = PyValue.vNone ∨ extract_id r = PyValue.vStr "") →
      ((combine_results cyResp embResp 20).1.cypher_results).get? i = some r ∧
      r ∉ (combine_results cyResp embResp 20).1.unique_results ∧
      format_single_result r (i + 1) false ∈
        listingParts (combine_results cyResp embResp 20).1.cypher_results
          (combine_results cyResp embResp 20).1.embedding_results
          (combine_results cyResp embResp 20).1.unique_results cyResp.intent) ∧
    (∀ (i : ℕ) (r : PyDict), (embResp.results.take 20).get? i = some r →
      (dgetD r "feedback_ID" = PyValue.vNone ∨ dgetD r "feedback_ID" = PyValue.vStr "") →
      ((combine_results cyResp embResp 20).1.embedding_results).get? i = some r ∧
      (∀ u ∈ (combine_results cyResp embResp 20).1.unique_results,
        dget u "source" = some (PyValue.vStr "embedding") → u ≠ r) ∧
      format_single_result r (i + 1) true ∈
        listingParts (combine_results cyResp embResp 20).1.cypher_results
          (combine_results cyResp embResp 20).1.embedding_results
          (combine_results cyResp embResp 20).1.unique_results cyResp.intent) ∧
    (cyResp.intent ≠ "calculate_statistic" →
      (combine_results cyResp embResp 20).1.formatted_context =
        String.intercalate "\n"
          (listingParts (combine_results cyResp embResp 20).1.cypher_results
            (combine_results cyResp embResp 20).1.embedding_results
            (combine_results cyResp embResp 20).1.unique_results cyResp.intent)) := by
  have huq : (combine_results cyResp embResp 20).1.unique_results =
      (dedupPass extract_id "cypher" (cyResp.results.take 20) []).2.1 ++
      (dedupPass embId "embedding" (embResp.results.take 20)
        (dedupPass extract_id "cypher" (cyResp.results.take 20) []).2.2).2.1 := rfl
  have htruthy : ∀ u ∈ (combine_results cyResp embResp 20).1.unique_results,
      truthy (extract_id u) = true := by
    intro u hu
    rw [huq] at hu
    rcases List.mem_append.mp hu with h1 | h1
    · obtain ⟨r, _, he, ht, _⟩ := dedupPass_uq_spec extract_id "cypher" _ _ u h1
      rw [he, extract_id_dset_source]
      exact ht
    · obtain ⟨r, _, he, ht, _⟩ := dedupPass_uq_spec embId "embedding" _ _ u h1
      rw [he, extract_id_dset_source, extract_id_of_truthy_embId r ht]
      exact ht
  refine ⟨htruthy, rfl, ?_, ?_, ?_⟩
  · intro i r hget hbad
    have hfalse : truthy (extract_id r) = false := by
      rcases hbad with hb | hb <;> rw [hb] <;> rfl
    have hecho : ((combine_results cyResp embResp 20).1.cypher_results).get? i = some r :=
      dedupPass_pos_bad extract_id "cypher" _ [] i r hget hfalse
    refine ⟨hecho, ?_, ?_⟩
    · intro hmem
      rw [htruthy r hmem] at hfalse
      cases hfalse
    · have hne : ((combine_results cyResp embResp 20).1.cypher_results) ≠ [] := by
        intro hnil
        rw [hnil] at hecho
        simp at hecho
      have hmem1 : format_single_result r (i + 1) false ∈
          (List.enumFrom 1 (combine_results cyResp embResp 20).1.cypher_results).map
            (fun p => format_single_result p.2 p.1 false) := by
        refine List.mem_map.mpr ⟨(i + 1, r), ?_, rfl⟩
        have := enumFrom_mem_of_get? _ 1 i r hecho
        rwa [Nat.add_comm 1 i] at this
      have hmem2 : format_single_result r (i + 1) false ∈
          (if (!((combine_results cyResp embResp 20).1.cypher_results).isEmpty) = true then
            ["\n1. EXACT MATCHES from database query (" ++
               toString ((combine_results cyResp embResp 20).1.cypher_results).length ++
               " results):", repeatStr '-' 80] ++
            (List.enumFrom 1 (combine_results cyResp embResp 20).1.cypher_results).map
              (fun p => format_single_result p.2 p.1 false)
          else ["\n1. EXACT MATCHES: No exact matches found."]) := by
        rw [if_pos (show (!((combine_results cyResp embResp 20).1.cypher_results).isEmpty) = true
              by rw [List.isEmpty_eq_false.mpr hne]; rfl)]
        exact List.mem_append_right _ hmem1
      unfold listingParts
      exact List.mem_append_left _ (List.mem_append_left _ (List.mem_append_left _
        (List.mem_append_left _ (List.mem_append_right _ hmem2))))
  · intro i r hget hbad
    have hfalse : truthy (embId r) = false := by
      unfold embId
      rcases hbad with hb | hb <;> rw [hb] <;> rfl
    have hecho : ((combine_results cyResp embResp 20).1.embedding_results).get? i = some r :=
      dedupPass_pos_bad embId "embedding" _ _ i r hget hfalse
    refine ⟨hecho, ?_, ?_⟩
    · intro u hu hsrc heq
      rw [huq] at hu
      rcases List.mem_append.mp hu with h1 | h1
      · obtain ⟨r0, _, he, _, _⟩ := dedupPass_uq_spec extract_id "cypher" _ _ u h1
        rw [he, dget_dset_self] at hsrc
        exact absurd hsrc (by decide)
      · obtain ⟨r0, _, he, ht, _⟩ := dedupPass_uq_spec embId "embedding" _ _ u h1
        have : truthy (embId u) = true := by
          rw [he, embId_dset_source]
          exact ht
        rw [heq, hfalse] at this
        cases this
    · have hne : ((combine_results cyResp embResp 20).1.embedding_results) ≠ [] := by
        intro hnil
        rw [hnil] at hecho
        simp at hecho
      have hmem1 : format_single_result r (i + 1) true ∈
          (List.enumFrom 1 (combine_results cyResp embResp 20).1.embedding_results).map
            (fun p => format_single_result p.2 p.1 true) := by
        refine List.mem_map.mpr ⟨(i + 1, r), ?_, rfl⟩
        have := enumFrom_mem_of_get? _ 1 i r hecho
        rwa [Nat.add_comm 1 i] at this
      have hmem2 : format_single_result r (i + 1) true ∈
          (if (!((combine_results cyResp embResp 20).1.embedding_results).isEmpty) = true then
            ["\n2. SEMANTIC MATCHES from AI similarity search (" ++
               toString ((combine_results cyResp embResp 20).1.embedding_results).length ++
               " results):", repeatStr '-' 80] ++
            (List.enumFrom 1 (combine_results cyResp embResp 20).1.embedding_results).map
              (fun p => format_single_result p.2 p.1 true)
          else ["\n2. SEMANTIC MATCHES: No similar journeys found."]) := by
        rw [if_pos (show (!((combine_results cyResp embResp 20).1.embedding_results).isEmpty) = true
              by rw [List.isEmpty_eq_false.mpr hne]; rfl)]
        exact List.mem_append_right _ hmem1
      unfold listingParts
      exact List.mem_append_left _ (List.mem_append_left _ (List.mem_append_left _
        (List.mem_append_right _ hmem2)))
  · intro hintent
    show format_for_llm _ _ _ cyResp.intent cyResp.params = _
    unfold format_for_llm
    rw [if_neg (fun hc => hintent (by simpa using hc.1))]
    rfl

/-- C9 witness: a Cypher record without any identifier is echoed at its
position, excluded from the unique list, and still rendered in section 1. -/
theorem C9_silent_exclusion_witness :
    ((combine_results
        { intent := "delay_analysis", params := [],
          results := [[("passenger_class", PyValue.vStr "Economy")]],
          count := 1, error := none }
        { query := "q", model := "m", embedding_property := "p",
          results := [[("feedback_ID", PyValue.vNone)]], count := 1 }
        20).1.cypher_results).get? 0 = some [("passenger_class", PyValue.vStr "Economy")] ∧
    [("passenger_class", PyValue.vStr "Economy")] ∉
      (combine_results
        { intent := "delay_analysis", params := [],
          results := [[("passenger_class", PyValue.vStr "Economy")]],
          count := 1, error := none }
        { query := "q", model := "m", embedding_property := "p",
          results := [[("feedback_ID", PyValue.vNone)]], count := 1 }
        20).1.unique_results ∧
    format_single_result [("passenger_class", PyValue.vStr "Economy")] 1 false ∈
      listingParts
        (combine_results
          { intent := "delay_analysis", params := [],
            results := [[("passenger_class", PyValue.vStr "Economy")]],
            count := 1, error := none }
          { query := "q", model := "m", embedding_property := "p",
            results := [[("feedback_ID", PyValue.vNone)]], count := 1 }
          20).1.cypher_results
        (combine_results
          { intent := "delay_analysis", params := [],
            results := [[("passenger_class", PyValue.vStr "Economy")]],
            count := 1, error := none }
          { query := "q", model := "m", embedding_property := "p",
            results := [[("feedback_ID", PyValue.vNone)]], count := 1 }
          20).1.embedding_results
        (combine_results
          { intent := "delay_analysis", params := [],
            results := [[("passenger_class", PyValue.vStr "Economy")]],
            count := 1, error := none }
          { query := "q", model := "m", embedding_property := "p",
            results := [[("feedback_ID", PyValue.vNone)]], count := 1 }
          20).1.unique_results "delay_analysis" :=
  (C9_silent_exclusion _ _).2.2.1 0 [("passenger_class", PyValue.vStr "Economy")]
    rfl (Or.inl rfl)

/-! ## Claim C10 — the combiner mutates its inputs with a `"source"` tag -/

/-- C10: every record surviving deduplication carries a `"source"` key of
`"cypher"` or `"embedding"`; each surviving record is one of the (updated)
records of the caller's response lists; positionally, an input record is
either left untouched (skipped as a duplicate or lacking an identifier) or
replaced in place by itself with the `"source"` key set, in which case that
very record is in the unique list; and the caller's lists after the call are
exactly the mutated first-20 segment followed by the untouched tail. -/
theorem C10_source_mutation (cyResp : QueryResponse) (embResp : EmbResponse) :
    (∀ u ∈ (combine_results cyResp embResp 20).1.unique_results,
      dget u "source" = some (PyValue.vStr "cypher") ∨
      dget u "source" = some (PyValue.vStr "embedding")) ∧
    (∀ u ∈ (combine_results cyResp embResp 20).1.unique_results,
      u ∈ ((combine_results cyResp embResp 20).2.1).results ∨
      u ∈ ((combine_results cyResp embResp 20).2.2).results) ∧
    (∀ (i : ℕ) (r : PyDict), (cyResp.results.take 20).get? i = some r →
      ((combine_results cyResp embResp 20).1.cypher_results).get? i = some r ∨
      (((combine_results cyResp embResp 20).1.cypher_results).get? i =
          some (dset r "source" (PyValue.vStr "cypher")) ∧
        dset r "source" (PyValue.vStr "cypher") ∈
          (combine_results cyResp embResp 20).1.unique_results)) ∧
    (∀ (i : ℕ) (r : PyDict), (embResp.results.take 20).get? i = some r →
      ((combine_results cyResp embResp 20).1.embedding_results).get? i = some r ∨
      (((combine_results cyResp embResp 20).1.embedding_results).get? i =
          some (dset r "source" (PyValue.vStr "embedding")) ∧
        dset r "source" (PyValue.vStr "embedding") ∈
          (combine_results cyResp embResp 20).1.unique_results)) ∧
    ((combine_results cyResp embResp 20).2.1).results =
      (combine_results cyResp embResp 20).1.cypher_results ++ cyResp.results.drop 20 ∧
    ((combine_results cyResp embResp 20).2.2).results =
      (combine_results cyResp embResp 20).1.embedding_results ++ embResp.results.drop 20 := by
  have huq : (combine_results cyResp embResp 20).1.unique_results =
      (dedupPass extract_id "cypher" (cyResp.results.take 20) []).2.1 ++
      (dedupPass embId "embedding" (embResp.results.take 20)
        (dedupPass extract_id "cypher" (cyResp.results.take 20) []).2.2).2.1 := rfl
  refine ⟨?_, ?_, ?_, ?_, rfl, rfl⟩
  · intro u hu
    rw [huq] at hu
    rcases List.mem_append.mp hu with h1 | h1
    · obtain ⟨r, _, he, _, _⟩ := dedupPass_uq_spec extract_id "cypher" _ _ u h1
      exact Or.inl (by rw [he, dget_dset_self])
    · obtain ⟨r, _, he, _, _⟩ := dedupPass_uq_spec embId "embedding" _ _ u h1
      exact Or.inr (by rw [he, dget_dset_self])
  · intro u hu
    rw [huq] at hu
    rcases List.mem_append.mp hu with h1 | h1
    · exact Or.inl (List.mem_append_left _
        (dedupPass_uq_subset extract_id "cypher" _ _ u h1))
    · exact Or.inr (List.mem_append_left _
        (dedupPass_uq_subset embId "embedding" _ _ u h1))
  · intro i r hget
    rcases dedupPass_pos_disj extract_id "cypher" (cyResp.results.take 20) [] i r hget
      with h1 | ⟨h1, h2⟩
    · exact Or.inl h1
    · exact Or.inr ⟨h1, by rw [huq]; exact List.mem_append_left _ h2⟩
  · intro i r hget
    rcases dedupPass_pos_disj embId "embedding" (embResp.results.take 20)
      (dedupPass extract_id "cypher" (cyResp.results.take 20) []).2.2 i r hget
      with h1 | ⟨h1, h2⟩
    · exact Or.inl h1
    · exact Or.inr ⟨h1, by rw [huq]; exact List.mem_append_right _ h2⟩

/-- C10 witness: a Cypher record with identifier `J1` is replaced in place
by its tagged copy, which is in the unique list. -/
theorem C10_source_mutation_witness :
    ((combine_results
        { intent := "delay_analysis", params := [],
          results := [[("feedback_ID", PyValue.vStr "J1")]], count := 1, error := none }
        { query := "q", model := "m", embedding_property := "p",
          results := [], count := 0 }
        20).1.cypher_results).get? 0 = some [("feedback_ID", PyValue.vStr "J1")] ∨
    (((combine_results
        { intent := "delay_analysis", params := [],
          results := [[("feedback_ID", PyValue.vStr "J1")]], count := 1, error := none }
        { query := "q", model := "m", embedding_property := "p",
          results := [], count := 0 }
        20).1.cypher_results).get? 0 =
        some (dset [("feedback_ID", PyValue.vStr "J1")] "source" (PyValue.vStr "cypher")) ∧
      dset [("feedback_ID", PyValue.vStr "J1")] "source" (PyValue.vStr "cypher") ∈
        (combine_results
          { intent := "delay_analysis", params := [],
            results := [[("feedback_ID", PyValue.vStr "J1")]], count := 1, error := none }
          { query := "q", model := "m", embedding_property := "p",
            results := [], count := 0 }
          20).1.unique_results) :=
  (C10_source_mutation _ _).2.2.1 0 [("feedback_ID", PyValue.vStr "J1")] rfl
